import Mathlib

/-!
# STM32 event loop and TCP connection manager

A shallow embedding of `src/arch/stm32/eventloop_stm32.c`,
`src/arch/stm32/eventloop_stm32.h` and `src/arch/stm32/eventloop_stm32_tcp.c`.

Conventions of the embedding:

* the reactor object `UA_EventLoopSTM32` is a record; the FreeRTOS queue is the
  list of its pending items (oldest first), the binary semaphore is a `Bool`
  (`true` = given and not yet taken);
* results of calls into FreeRTOS, lwIP and the timer engine are inputs of the
  definitions (outcome of `xTaskCreate`, return value of `select`, of `recv`, ...);
* a call that can suspend its caller (`xQueueSend` and `xSemaphoreTake` with
  `portMAX_DELAY`) is a step function on a control point; `none` means that the
  caller stays suspended in the present state;
* the reactor task, the caller of `stop()` and the interrupt handler are
  interleaved by an explicit schedule (`System.exec`); a caller of `free()` and the
  process-wide pointer `g_eventLoop` are added in `Firmware.exec`;
* the connection manager works on the registry `el.fds` of its reactor and records
  the calls it makes into lwIP and the allocator, in program order;
* the sweep calls `rfd->callback(el_base, rfd, events)` with the reactor as first
  argument (`eventloop_stm32.c`, line 137), while the callbacks of
  `eventloop_stm32_tcp.c` read their first argument as a `UA_TCPConnectionManager`.
  The loop is therefore modelled for every effect of such a call
  (`CallbackEffect`), and the callbacks are modelled on their own, for every
  connection manager they may be handed.
-/

namespace STM32

/-! ## Constants and enumerations -/

/-- Modelled from the spec: the status taxonomy of section 6 (`UA_StatusCode` is
declared in open62541's `statuscodes.h`, outside `src/`), with
`UA_STATUSCODE_BADALREADYEXISTS` for the "AlreadyRegistered" failure of the
registry (section 4.1). Only equality of codes is used. -/
inductive UA_StatusCode where
  | UA_STATUSCODE_GOOD
  | UA_STATUSCODE_BADINVALIDARGUMENT
  | UA_STATUSCODE_BADOUTOFMEMORY
  | UA_STATUSCODE_BADINTERNALERROR
  | UA_STATUSCODE_BADCONNECTIONCLOSED
  | UA_STATUSCODE_BADNOTIMPLEMENTED
  | UA_STATUSCODE_BADALREADYEXISTS
  deriving DecidableEq, Repr

/-- Modelled from the spec: the lifecycle states of section 4.2
(`UA_EventLoopState` is declared in open62541's `eventloop.h`, outside `src/`).
The source compares the state with `UA_EVENTLOOPSTATE_FRESH`,
`UA_EVENTLOOPSTATE_STOPPED` and `UA_EVENTLOOPSTATE_STARTED`;
`UA_EVENTLOOPSTATE_STOPPING` stands for any further value of the enumeration. -/
inductive UA_EventLoopState where
  | UA_EVENTLOOPSTATE_FRESH
  | UA_EVENTLOOPSTATE_STOPPED
  | UA_EVENTLOOPSTATE_STARTED
  | UA_EVENTLOOPSTATE_STOPPING
  deriving DecidableEq, Repr

/-- The enumeration `UA_STM32EventType` of `eventloop_stm32.h`, lines 113-118. -/
inductive UA_STM32EventType where
  | STM32_EVENT_TIMER
  | STM32_EVENT_SOCKET
  | STM32_EVENT_STOP
  | STM32_EVENT_NETWORK_STATUS
  deriving DecidableEq, Repr

/-- The record `UA_STM32Event` of `eventloop_stm32.h`, lines 120-124; the
pointer `data` is `none` when it is `NULL`. -/
structure UA_STM32Event where
  type : UA_STM32EventType
  data : Option Nat
  param : Nat
  deriving DecidableEq, Repr

/-- The queue length `STM32_EVENTLOOP_QUEUE_SIZE` of `eventloop_stm32.h`, line 41. -/
def STM32_EVENTLOOP_QUEUE_SIZE : Nat := 16

/-- Modelled from the spec: the readable bit of an interest or event mask
(section 3: "interest mask (readable/writable/error)"); `UA_FDEVENT_IN` is
declared in open62541's `eventloop.h`, outside `src/`, as the value 1. -/
def UA_FDEVENT_IN : Nat := 1

/-- Modelled from the spec: the writable bit of an interest or event mask; declared
outside `src/` as the value 2. -/
def UA_FDEVENT_OUT : Nat := 2

/-- Modelled from the spec: the error bit of an interest or event mask; declared
outside `src/` as the value 4. -/
def UA_FDEVENT_ERR : Nat := 4

/-- Modelled from the spec: the reserved "invalid" handle of section 3
(`UA_INVALID_FD`, declared outside `src/` as -1). -/
def UA_INVALID_FD : Int := -1

/-- The constant `UA_INT64_MAX`, the "no timer" value of `UA_Timer_nextRepeatedTime`. -/
def UA_INT64_MAX : Int := 9223372036854775807

/-- The constant `UA_UINT32_MAX`. -/
def UA_UINT32_MAX : Nat := 4294967295

/-- The constant `UA_DATETIME_MSEC`: one millisecond in units of 100 ns. -/
def UA_DATETIME_MSEC : Int := 10000

/-- The errno value `EAGAIN` of `stm32_hal.h`, line 65. -/
def EAGAIN : Int := 11

/-- The errno value `EWOULDBLOCK` of `stm32_hal.h`, line 69 (`#define EWOULDBLOCK EAGAIN`). -/
def EWOULDBLOCK : Int := EAGAIN

/-! ## Data model -/

/-- The callback of a `UA_RegisteredFD`: one of the two that `eventloop_stm32_tcp.c`
installs (lines 116 and 193), or the callback of another component that registers
descriptors through the reactor's `registerFD` method. -/
inductive UA_FDCallback where
  | listenSocket
  | connectionSocket
  | other (component : Nat)
  deriving DecidableEq, Repr

/-- The application tuple `rfd->application`: the owning connection (`none` when the
pointer is `NULL`), the application pointer and the free-form context. -/
structure UA_FDApplication where
  connection : Option Nat
  application : Nat
  context : Nat
  deriving DecidableEq, Repr

/-- A registered descriptor `UA_RegisteredFD`: handle, interest mask, callback and
application tuple, as the source reads and writes them. -/
structure UA_RegisteredFD where
  fd : Int
  listenEvents : Nat
  callback : UA_FDCallback
  application : UA_FDApplication
  deriving DecidableEq, Repr

/-- The reactor `UA_EventLoopSTM32` of `eventloop_stm32.h`, lines 95-110.
`state` is `el.eventLoop.state`, `fds` the registry `el.fds` in key order,
`loopTasks` the number of reactor tasks that `xTaskCreate` has created for it,
`eventQueue` the items held by the FreeRTOS queue (oldest first) and
`stopSemaphore` whether the binary semaphore is given. -/
structure UA_EventLoopSTM32 where
  state : UA_EventLoopState
  fds : List UA_RegisteredFD
  loopTasks : Nat
  eventQueue : List UA_STM32Event
  stopSemaphore : Bool
  useWatchdog : Bool
  watchdogTimeout : Nat
  deriving DecidableEq, Repr

open UA_StatusCode UA_EventLoopState UA_STM32EventType

/-! ## FreeRTOS primitives -/

/-- The call `xQueueSend(queue, item, portMAX_DELAY)` on a queue of
`STM32_EVENTLOOP_QUEUE_SIZE` slots: the item goes to the tail when a slot is free;
`none` when the queue is full and the caller stays suspended. -/
def xQueueSend (queue : List UA_STM32Event) (item : UA_STM32Event) :
    Option (List UA_STM32Event) :=
  if queue.length < STM32_EVENTLOOP_QUEUE_SIZE then some (queue ++ [item]) else none

/-- The call `xQueueSendFromISR(queue, item, _)`: never suspends; returns whether the
item was queued, and the queue. -/
def xQueueSendFromISR (queue : List UA_STM32Event) (item : UA_STM32Event) :
    Bool × List UA_STM32Event :=
  if queue.length < STM32_EVENTLOOP_QUEUE_SIZE then (true, queue ++ [item]) else (false, queue)

/-- The call `xQueueReceive(queue, &event, 0)`: the oldest item and the rest of the
queue, or `none` (the call returns `pdFALSE`) when the queue is empty. -/
def xQueueReceive (queue : List UA_STM32Event) :
    Option (UA_STM32Event × List UA_STM32Event) :=
  match queue with
  | [] => none
  | event :: rest => some (event, rest)

/-- The call `xSemaphoreTake(sem, portMAX_DELAY)`: takes a given semaphore; `none` when
it is not given and the caller stays suspended. -/
def xSemaphoreTake (sem : Bool) : Option Bool :=
  if sem then some false else none

/-- The call `xSemaphoreGive(sem)` on a binary semaphore. -/
def xSemaphoreGive (_sem : Bool) : Bool := true

/-! ## Lifecycle: start -/

/-- The function `UA_EventLoopSTM32_start` (`eventloop_stm32.c`, lines 186-210).
`taskCreated` tells whether `xTaskCreate` returns `pdPASS`. -/
def UA_EventLoopSTM32_start (el : UA_EventLoopSTM32) (taskCreated : Bool) :
    UA_StatusCode × UA_EventLoopSTM32 :=
  if el.state ≠ UA_EVENTLOOPSTATE_FRESH ∧ el.state ≠ UA_EVENTLOOPSTATE_STOPPED then
    (UA_STATUSCODE_BADINTERNALERROR, el)
  else
    let el1 := { el with state := UA_EVENTLOOPSTATE_STARTED }
    if taskCreated then
      (UA_STATUSCODE_GOOD, { el1 with loopTasks := el1.loopTasks + 1 })
    else
      (UA_STATUSCODE_BADOUTOFMEMORY, { el1 with state := UA_EVENTLOOPSTATE_STOPPED })

/-! ## Lifecycle: stop and run -/

/-- The Stop event that `stop()` builds (`eventloop_stm32.c`, lines 218-222). -/
def stopEvent : UA_STM32Event :=
  { type := STM32_EVENT_STOP, data := none, param := 0 }

/-- Control points of a call of `UA_EventLoopSTM32_stop`: at its entry, suspended in
`xQueueSend`, suspended in `xSemaphoreTake`, returned. -/
inductive StopPc where
  | entry
  | xQueueSend
  | xSemaphoreTake
  | returned
  deriving DecidableEq, Repr

/-- The function `UA_EventLoopSTM32_stop` (`eventloop_stm32.c`, lines 212-230), one
scheduling step of its caller at a time. `none`: the caller cannot advance in this
reactor state (it is suspended in a FreeRTOS call, or the call has returned). -/
def UA_EventLoopSTM32_stop : StopPc → UA_EventLoopSTM32 → Option (StopPc × UA_EventLoopSTM32)
  | .entry, el =>
    if el.state ≠ UA_EVENTLOOPSTATE_STARTED then some (.returned, el)
    else some (.xQueueSend, el)
  | .xQueueSend, el =>
    match xQueueSend el.eventQueue stopEvent with
    | none => none
    | some queue => some (.xSemaphoreTake, { el with eventQueue := queue })
  | .xSemaphoreTake, el =>
    match xSemaphoreTake el.stopSemaphore with
    | none => none
    | some sem =>
      some (.returned, { el with stopSemaphore := sem, state := UA_EVENTLOOPSTATE_STOPPED })
  | .returned, _ => none

/-- Control points of a call of `UA_EventLoopSTM32_run`: at its entry, suspended in
`xSemaphoreTake` (with `none` for `portMAX_DELAY`, `some ms` for
`pdMS_TO_TICKS(ms)`), returned with a status. -/
inductive RunPc where
  | entry
  | xSemaphoreTake (timeoutTicks : Option Nat)
  | returned (res : UA_StatusCode)
  deriving DecidableEq, Repr

/-- The function `UA_EventLoopSTM32_run` (`eventloop_stm32.c`, lines 232-253), one
scheduling step of its caller at a time. `taskCreated` is the outcome of
`xTaskCreate` inside `start`, `expired` tells whether a finite wait has run out.
`none`: the caller stays suspended, or the call has returned. -/
def UA_EventLoopSTM32_run (timeout : Nat) (taskCreated expired : Bool) :
    RunPc → UA_EventLoopSTM32 → Option (RunPc × UA_EventLoopSTM32)
  | .entry, el =>
    let started :=
      if el.state = UA_EVENTLOOPSTATE_FRESH then UA_EventLoopSTM32_start el taskCreated
      else (UA_STATUSCODE_GOOD, el)
    if started.1 ≠ UA_STATUSCODE_GOOD then some (.returned started.1, started.2)
    else if timeout = 0 then some (.returned UA_STATUSCODE_GOOD, started.2)
    else
      some (.xSemaphoreTake (if timeout = UA_UINT32_MAX then none else some timeout),
        started.2)
  | .xSemaphoreTake timeoutTicks, el =>
    if el.stopSemaphore then
      some (.returned UA_STATUSCODE_GOOD, { el with stopSemaphore := false })
    else if timeoutTicks.isSome ∧ expired then some (.returned UA_STATUSCODE_GOOD, el)
    else none
  | .returned _, _ => none

/-! ## The reactor task: one pass of the loop -/

/-- What the environment answers during one pass of the loop: the tick count, the
monotonic clock, the timer engine's next deadline after `UA_Timer_process`, the
return value of `select` and the handles lwIP finds readable and writable. -/
structure PassInput where
  currentTick : Nat
  now : Int
  nextTimer : Int
  selectResult : Int
  readable : List Int
  writable : List Int
  deriving DecidableEq, Repr

/-- Two's complement value of a 64-bit signed result (`UA_DateTime` is `int64_t`). -/
def wrapInt64 (x : Int) : Int := (x + 2 ^ 63) % 2 ^ 64 - 2 ^ 63

/-- The wait in milliseconds that a pass computes from `now` and `nextTimer`
(`eventloop_stm32.c`, lines 94-104). -/
def Task_timeout (now nextTimer : Int) : Nat :=
  let timeout : Nat := 100
  if nextTimer ≠ UA_INT64_MAX then
    let diff := wrapInt64 (nextTimer - now)
    if diff < 0 then 0
    else if diff < (UA_UINT32_MAX : Int) / UA_DATETIME_MSEC then
      (diff / UA_DATETIME_MSEC).toNat % 2 ^ 32
    else timeout
  else timeout

/-- The test `FD_ISSET(fd, set)` on a descriptor set given by its members. -/
def FD_ISSET (fd : Int) (set : List Int) : Bool := decide (fd ∈ set)

/-- The update `FD_SET(fd, set)`. -/
def FD_SET (fd : Int) (set : List Int) : List Int := fd :: set

/-- The function `setFDSetsFromFDTree` (`eventloop_stm32.c`, lines 40-58): the read
set, the write set and `maxfd`, from the registry in key order. -/
def setFDSetsFromFDTree (el : UA_EventLoopSTM32) : List Int × List Int × Int :=
  el.fds.foldl
    (fun (acc : List Int × List Int × Int) rfd =>
      let maxfd :=
        if rfd.fd > acc.2.2 ∨ acc.2.2 = UA_INVALID_FD then rfd.fd else acc.2.2
      let readset :=
        if rfd.listenEvents &&& UA_FDEVENT_IN ≠ 0 then FD_SET rfd.fd acc.1 else acc.1
      let writeset :=
        if rfd.listenEvents &&& UA_FDEVENT_OUT ≠ 0 then FD_SET rfd.fd acc.2.1 else acc.2.1
      (readset, writeset, maxfd))
    ([], [], UA_INVALID_FD)

/-- The lwIP call `select(maxfd + 1, &readset, &writeset, NULL, &tv)`: it returns
`selectResult` and leaves in each set those of its members that are ready. -/
def select (readset writeset : List Int) (os : PassInput) : Int × List Int × List Int :=
  (os.selectResult,
   readset.filter (fun fd => decide (fd ∈ os.readable)),
   writeset.filter (fun fd => decide (fd ∈ os.writable)))

/-- The blocking call by which a pass waits: `select` with `nfds` and the timeval
`tv`, or `vTaskDelay(pdMS_TO_TICKS(ms))` when no handle is registered. -/
inductive WaitCall where
  | select (nfds : Int) (tv_sec tv_usec : Nat)
  | vTaskDelay (ms : Nat)
  deriving DecidableEq, Repr

/-- The event mask that the sweep computes for a handle (`eventloop_stm32.c`,
lines 127-132). -/
def Task_events (readset writeset : List Int) (fd : Int) : Nat :=
  let events : Nat := 0
  let events := if FD_ISSET fd readset then events ||| UA_FDEVENT_IN else events
  let events := if FD_ISSET fd writeset then events ||| UA_FDEVENT_OUT else events
  events

/-- What the call `rfd->callback(el_base, rfd, events)` of the sweep
(`eventloop_stm32.c`, line 137) does to the registry, for a descriptor and an event
mask. The loop does not read the status that the call returns, so the registry is
all that a callback hands on to the rest of the pass. The loop is modelled for every
such effect: it fixes nothing about what a callback does. -/
abbrev CallbackEffect := UA_RegisteredFD → Nat → List UA_RegisteredFD → List UA_RegisteredFD

/-- The sweep over the registry (`eventloop_stm32.c`, lines 124-139). Modelled from
the spec: `ZIP_ITER_SAFE` is not under `src/`; by section 4.1 the traversal is
safe under mutation, so the sweep visits, in key order, the descriptors that are
registered when it starts, while the callbacks it invokes may change the
registry. Result: the callback invocations, in order, and the registry left. -/
def Task_processSocketEvents (cb : CallbackEffect) (readset writeset : List Int) :
    List UA_RegisteredFD → List UA_RegisteredFD →
      List (UA_RegisteredFD × Nat) × List UA_RegisteredFD
  | [], registry => ([], registry)
  | rfd :: rest, registry =>
    let events := Task_events readset writeset rfd.fd
    if events ≠ 0 then
      let swept := Task_processSocketEvents cb readset writeset rest (cb rfd events registry)
      ((rfd, events) :: swept.1, swept.2)
    else Task_processSocketEvents cb readset writeset rest registry

/-- The drain of the event queue at the end of a pass (`eventloop_stm32.c`,
lines 145-167): the reactor left and the event received, if any. -/
def Task_checkEvents (el : UA_EventLoopSTM32) : UA_EventLoopSTM32 × Option UA_STM32Event :=
  match xQueueReceive el.eventQueue with
  | none => (el, none)
  | some (event, rest) =>
    let el1 := { el with eventQueue := rest }
    match event.type with
    | STM32_EVENT_STOP => ({ el1 with state := UA_EVENTLOOPSTATE_STOPPED }, some event)
    | STM32_EVENT_NETWORK_STATUS => (el1, some event)
    | _ => (el1, some event)

/-- What one pass of the loop did: the reactor it leaves, the task's
`lastWatchdogRefresh`, whether the watchdog was refreshed, the computed wait, the
blocking call, `selectResult` and the two sets after the wait, the callback
invocations in order, and the event taken from the queue. -/
structure TaskPass where
  el : UA_EventLoopSTM32
  lastWatchdogRefresh : Nat
  watchdogRefreshed : Bool
  timeout : Nat
  wait : WaitCall
  selectResult : Int
  readset : List Int
  writeset : List Int
  callbacks : List (UA_RegisteredFD × Nat)
  received : Option UA_STM32Event
  deriving DecidableEq, Repr

/-- One pass of the loop body of `UA_EventLoopSTM32_Task` (`eventloop_stm32.c`,
lines 79-170). `UA_Timer_process` runs callbacks of the external timer engine; they
are not part of the reactor record. -/
def Task_pass (cb : CallbackEffect) (os : PassInput) (lastWatchdogRefresh : Nat)
    (el : UA_EventLoopSTM32) : TaskPass :=
  let refresh : Bool :=
    el.useWatchdog &&
      decide ((os.currentTick + 2 ^ 32 - lastWatchdogRefresh % 2 ^ 32) % 2 ^ 32
        ≥ el.watchdogTimeout)
  let timeout := Task_timeout os.now os.nextTimer
  let sets := setFDSetsFromFDTree el
  let maxfd := sets.2.2
  let tv_sec := timeout / 1000
  let tv_usec := (timeout % 1000) * 1000
  let waited : Int × List Int × List Int :=
    if maxfd ≠ UA_INVALID_FD then select sets.1 sets.2.1 os else (0, sets.1, sets.2.1)
  let wait : WaitCall :=
    if maxfd ≠ UA_INVALID_FD then .select (maxfd + 1) tv_sec tv_usec else .vTaskDelay timeout
  let swept : List (UA_RegisteredFD × Nat) × List UA_RegisteredFD :=
    if waited.1 > 0 then Task_processSocketEvents cb waited.2.1 waited.2.2 el.fds el.fds
    else ([], el.fds)
  let drained := Task_checkEvents { el with fds := swept.2 }
  { el := drained.1
    lastWatchdogRefresh := if refresh then os.currentTick else lastWatchdogRefresh
    watchdogRefreshed := refresh
    timeout := timeout
    wait := wait
    selectResult := waited.1
    readset := waited.2.1
    writeset := waited.2.2
    callbacks := swept.1
    received := drained.2 }

/-- Control points of the reactor task: in its loop, or past it (semaphore given,
task deleted). -/
inductive TaskPc where
  | looping
  | finished
  deriving DecidableEq, Repr

/-- The function `UA_EventLoopSTM32_Task` (`eventloop_stm32.c`, lines 64-180), one loop
test at a time: while the state is not Stopped it runs one pass; once the state is
Stopped it leaves the loop, gives the stop semaphore and ends. The triple is the
control point, `lastWatchdogRefresh` and the reactor. -/
def UA_EventLoopSTM32_Task (cb : CallbackEffect) (os : PassInput) :
    TaskPc × Nat × UA_EventLoopSTM32 → TaskPc × Nat × UA_EventLoopSTM32
  | (.finished, last, el) => (.finished, last, el)
  | (.looping, last, el) =>
    if el.state ≠ UA_EVENTLOOPSTATE_STOPPED then
      let pass := Task_pass cb os last el
      (.looping, pass.lastWatchdogRefresh, pass.el)
    else
      (.finished, last, { el with stopSemaphore := xSemaphoreGive el.stopSemaphore })

/-- The function `STM32_NetworkStatusCallback` (`eventloop_stm32.c`, lines 335-353).
`g_eventLoop` is the reactor that the process-wide pointer refers to, `none` when the
pointer is `NULL`; the result is that reactor after the call. -/
def STM32_NetworkStatusCallback (g_eventLoop : Option UA_EventLoopSTM32) (connected : Bool) :
    Option UA_EventLoopSTM32 :=
  match g_eventLoop with
  | none => none
  | some el =>
    let event : UA_STM32Event :=
      { type := STM32_EVENT_NETWORK_STATUS, data := none, param := if connected then 1 else 0 }
    some { el with eventQueue := (xQueueSendFromISR el.eventQueue event).2 }

/-! ## The reactor, its task and a caller of stop, interleaved -/

/-- A reactor together with the execution contexts that act on it: the reactor task
(control point, its local `lastWatchdogRefresh`, the number of passes it has run),
one caller of `stop()` (control point, and how many Stop events it has queued and
how many times it has taken the stop semaphore), and whether `g_eventLoop` points to
the reactor. -/
structure System where
  el : UA_EventLoopSTM32
  g_eventLoop : Bool
  task : TaskPc
  lastWatchdogRefresh : Nat
  passes : Nat
  stop : StopPc
  stopSent : Nat
  stopTaken : Nat
  deriving DecidableEq, Repr

/-- A scheduling decision: the reactor task runs one loop test (with what the
environment answers in that pass), the caller of `stop()` runs until its next
suspension point, or the network interrupt fires. -/
inductive Action where
  | task (os : PassInput)
  | stop
  | networkStatus (connected : Bool)
  deriving DecidableEq, Repr

/-- One scheduling decision applied to the system. A context that cannot advance
leaves the system as it is. The count of passes is read off what the task function
did: a loop test that leaves the task in its loop has run the loop body once. -/
def System.step (cb : CallbackEffect) (s : System) : Action → System
  | .task os =>
    let next := UA_EventLoopSTM32_Task cb os (s.task, s.lastWatchdogRefresh, s.el)
    { s with
      el := next.2.2
      task := next.1
      lastWatchdogRefresh := next.2.1
      passes := if s.task = .looping ∧ next.1 = .looping then s.passes + 1 else s.passes }
  | .stop =>
    match UA_EventLoopSTM32_stop s.stop s.el with
    | none => s
    | some (pc, el) =>
      { s with
        el := el
        stop := pc
        stopSent := if s.stop = .xQueueSend then s.stopSent + 1 else s.stopSent
        stopTaken := if s.stop = .xSemaphoreTake then s.stopTaken + 1 else s.stopTaken }
  | .networkStatus connected =>
    match STM32_NetworkStatusCallback (if s.g_eventLoop then some s.el else none) connected with
    | none => s
    | some el => { s with el := el }

/-- A schedule applied to the system, first decision first. -/
def System.exec (cb : CallbackEffect) (s : System) (schedule : List Action) : System :=
  schedule.foldl (System.step cb) s

/-- A callback effect that leaves the registry alone. -/
def noEffect : CallbackEffect := fun _ _ registry => registry

/-- A pass input in which nothing is ready: no timer, `select` returns 0. -/
def idlePass : PassInput :=
  { currentTick := 0, now := 0, nextTimer := UA_INT64_MAX, selectResult := 0,
    readable := [], writable := [] }

/-! ## TCP connection manager -/

/-- A payload byte (`UA_Byte`). -/
abbrev UA_Byte := Fin 256

/-- The record `UA_TCPConnectionManager` (`eventloop_stm32_tcp.c`, lines 16-22); the
reactor it refers to is passed where it is used. -/
structure UA_TCPConnectionManager where
  sendBufferSize : Nat
  recvBufferSize : Nat
  connectTimeout : Nat
  deriving DecidableEq, Repr

/-- The function `UA_ConnectionManager_new_TCP_STM32` (`eventloop_stm32_tcp.c`,
lines 244-265). `allocated` tells whether `UA_calloc` succeeds; `none` is the
`NULL` result. -/
def UA_ConnectionManager_new_TCP_STM32 (allocated : Bool) (sendBufferSize recvBufferSize : Nat) :
    Option UA_TCPConnectionManager :=
  if !allocated then none
  else
    some
      { sendBufferSize := if sendBufferSize ≠ 0 then sendBufferSize else 8192
        recvBufferSize := if recvBufferSize ≠ 0 then recvBufferSize else 8192
        connectTimeout := 10000 }

/-- What lwIP holds for a socket when `recv` is called on it: bytes queued from the
peer (at least one), an orderly close by the peer, or a failure with its errno
(`EAGAIN` when a non-blocking socket has nothing queued). -/
inductive SocketInput where
  | pending (first : UA_Byte) (more : List UA_Byte)
  | closed
  | failed (errno : Int)
  deriving DecidableEq, Repr

/-- The result of a call of `recv`: the return value, the bytes written to the front
of the buffer, and errno after the call. -/
structure RecvResult where
  received : Int
  buffer : List UA_Byte
  errno : Int
  deriving DecidableEq, Repr

/-- The lwIP call `recv(fd, buffer, len, 0)`: at most `len` of the queued bytes, in
order; 0 on a close by the peer; -1 with errno set on a failure. -/
def recv (sock : SocketInput) (len : Nat) : RecvResult :=
  match sock with
  | .pending first more =>
    { received := ((first :: more).take len).length, buffer := (first :: more).take len,
      errno := 0 }
  | .closed => { received := 0, buffer := [], errno := 0 }
  | .failed errno => { received := -1, buffer := [], errno := errno }

/-- An invocation of the application's receive callback
`connection->receiveCallback(connection, &message, context)`. -/
structure ReceiveCall where
  connection : Nat
  message : List UA_Byte
  context : Nat
  deriving DecidableEq, Repr

/-- What an invocation of the connected-socket callback did: the status it returns,
the result of its call of `recv` (`none` when it does not call `recv`), and its
invocations of the application's receive callback. -/
structure ConnectionCallbackResult where
  status : UA_StatusCode
  read : Option RecvResult
  receiveCalls : List ReceiveCall
  deriving DecidableEq, Repr

/-- The function `TCP_connectionSocketCallback` (`eventloop_stm32_tcp.c`,
lines 36-85). `sock` is what lwIP holds for `rfd->fd`. -/
def TCP_connectionSocketCallback (tcm : UA_TCPConnectionManager) (rfd : UA_RegisteredFD)
    (event : Nat) (sock : SocketInput) : ConnectionCallbackResult :=
  if event &&& UA_FDEVENT_ERR ≠ 0 then
    { status := UA_STATUSCODE_BADCONNECTIONCLOSED, read := none, receiveCalls := [] }
  else if event &&& UA_FDEVENT_IN ≠ 0 then
    let r := recv sock tcm.recvBufferSize
    if r.received > 0 then
      let message := r.buffer.take r.received.toNat
      match rfd.application.connection with
      | some connection =>
        { status := UA_STATUSCODE_GOOD, read := some r,
          receiveCalls :=
            [{ connection := connection, message := message,
               context := rfd.application.context }] }
      | none => { status := UA_STATUSCODE_GOOD, read := some r, receiveCalls := [] }
    else if r.received = 0 then
      { status := UA_STATUSCODE_BADCONNECTIONCLOSED, read := some r, receiveCalls := [] }
    else if r.errno ≠ EAGAIN ∧ r.errno ≠ EWOULDBLOCK then
      { status := UA_STATUSCODE_BADCONNECTIONCLOSED, read := some r, receiveCalls := [] }
    else { status := UA_STATUSCODE_GOOD, read := some r, receiveCalls := [] }
  else { status := UA_STATUSCODE_GOOD, read := none, receiveCalls := [] }

/-! ## Registering descriptors -/

/-- A call into lwIP or the allocator made while a descriptor is registered, opened,
accepted or freed, as it appears in program order. -/
inductive OSCall where
  | socket
  | setsockopt (fd : Int)
  | bind (fd : Int) (port : Nat)
  | listen (fd : Int) (backlog : Nat)
  | accept (fd : Int)
  | fcntl_GETFL (fd : Int)
  | fcntl_SETFL (fd : Int) (flags : Nat)
  | close (fd : Int)
  | UA_free_tcm
  deriving DecidableEq, Repr

/-- The flag `O_NONBLOCK` of `stm32_hal.h`, line 90 (octal 04000). -/
def O_NONBLOCK : Nat := 2048

/-- What the environment answers while a descriptor is registered: the results of
`fcntl(F_GETFL)` and `fcntl(F_SETFL)`, and whether the registry can allocate storage
for one more entry. -/
structure RegisterOS where
  getfl : Int
  setfl : Int
  storage : Bool
  deriving DecidableEq, Repr

/-- The function `setNonBlocking` (`eventloop_stm32.c`, lines 21-32): its status and
the calls it makes. -/
def setNonBlocking (sockfd : Int) (os : RegisterOS) : UA_StatusCode × List OSCall :=
  let flags := os.getfl
  if flags = -1 then (UA_STATUSCODE_BADINTERNALERROR, [OSCall.fcntl_GETFL sockfd])
  else
    let flags := flags.toNat ||| O_NONBLOCK
    if os.setfl = -1 then
      (UA_STATUSCODE_BADINTERNALERROR, [OSCall.fcntl_GETFL sockfd, OSCall.fcntl_SETFL sockfd flags])
    else (UA_STATUSCODE_GOOD, [OSCall.fcntl_GETFL sockfd, OSCall.fcntl_SETFL sockfd flags])

/-- The function `setNoSigPipe` (`eventloop_stm32.c`, lines 34-38). -/
def setNoSigPipe (_sockfd : Int) : UA_StatusCode := UA_STATUSCODE_GOOD

/-- The insertion of a descriptor into the registry, which is kept in key order. -/
def FDTree_insert (rfd : UA_RegisteredFD) : List UA_RegisteredFD → List UA_RegisteredFD
  | [] => [rfd]
  | r :: rest => if rfd.fd < r.fd then rfd :: r :: rest else r :: FDTree_insert rfd rest

/-- Modelled from the spec: `UA_EventLoopPOSIX_registerFD` is not under `src/`. By
section 4.1 it fails with AlreadyRegistered if the handle already exists and with
OutOfMemory if storage cannot be allocated, in both cases without changing the
registry; otherwise it adds the descriptor. The argument is the registry `el.fds`. -/
def UA_EventLoopPOSIX_registerFD (fds : List UA_RegisteredFD) (rfd : UA_RegisteredFD)
    (storage : Bool) : UA_StatusCode × List UA_RegisteredFD :=
  if fds.any (fun r => decide (r.fd = rfd.fd)) then (UA_STATUSCODE_BADALREADYEXISTS, fds)
  else if !storage then (UA_STATUSCODE_BADOUTOFMEMORY, fds)
  else (UA_STATUSCODE_GOOD, FDTree_insert rfd fds)

/-- The result of an operation of the connection manager or of a registration: its
status, the registry it leaves, and the calls it made, in order. -/
structure TCPResult where
  status : UA_StatusCode
  fds : List UA_RegisteredFD
  calls : List OSCall
  deriving DecidableEq, Repr

/-- The function `UA_EventLoopSTM32_registerFD` (`eventloop_stm32.c`, lines 275-288),
on the registry `el.fds` of the reactor. -/
def UA_EventLoopSTM32_registerFD (fds : List UA_RegisteredFD) (rfd : UA_RegisteredFD)
    (os : RegisterOS) : TCPResult :=
  let nb := setNonBlocking rfd.fd os
  if nb.1 ≠ UA_STATUSCODE_GOOD then { status := nb.1, fds := fds, calls := nb.2 }
  else
    let res := setNoSigPipe rfd.fd
    if res ≠ UA_STATUSCODE_GOOD then { status := res, fds := fds, calls := nb.2 }
    else
      let added := UA_EventLoopPOSIX_registerFD fds rfd os.storage
      { status := added.1, fds := added.2, calls := nb.2 }

/-- The function `TCP_registerListenSocket` (`eventloop_stm32_tcp.c`, lines 24-28). -/
def TCP_registerListenSocket (fds : List UA_RegisteredFD) (rfd : UA_RegisteredFD)
    (os : RegisterOS) : TCPResult :=
  UA_EventLoopSTM32_registerFD fds rfd os

/-- The function `TCP_registerConnectedSocket` (`eventloop_stm32_tcp.c`, lines 30-34). -/
def TCP_registerConnectedSocket (fds : List UA_RegisteredFD) (rfd : UA_RegisteredFD)
    (os : RegisterOS) : TCPResult :=
  UA_EventLoopSTM32_registerFD fds rfd os

/-! ## TCP connection manager: accepting, opening, freeing -/

/-- What the environment answers during one invocation of the listen-socket callback:
the return value of `accept` (the new socket, or -1), whether `UA_calloc` succeeds,
and the answers to the registration. -/
structure AcceptOS where
  accept : Int
  calloc : Bool
  register : RegisterOS
  deriving DecidableEq, Repr

/-- The function `TCP_listenSocketCallback` (`eventloop_stm32_tcp.c`, lines 87-129), on
the registry of the manager's reactor. -/
def TCP_listenSocketCallback (fds : List UA_RegisteredFD) (rfd : UA_RegisteredFD)
    (event : Nat) (os : AcceptOS) : TCPResult :=
  if event &&& UA_FDEVENT_IN ≠ 0 then
    let client_socket := os.accept
    if client_socket = -1 then
      { status := UA_STATUSCODE_GOOD, fds := fds, calls := [OSCall.accept rfd.fd] }
    else if !os.calloc then
      { status := UA_STATUSCODE_BADOUTOFMEMORY, fds := fds,
        calls := [OSCall.accept rfd.fd, OSCall.close client_socket] }
    else
      let clientRfd : UA_RegisteredFD :=
        { fd := client_socket, listenEvents := UA_FDEVENT_IN,
          callback := UA_FDCallback.connectionSocket, application := rfd.application }
      let res := TCP_registerConnectedSocket fds clientRfd os.register
      if res.status ≠ UA_STATUSCODE_GOOD then
        { status := res.status, fds := res.fds,
          calls := OSCall.accept rfd.fd :: (res.calls ++ [OSCall.close client_socket]) }
      else
        { status := UA_STATUSCODE_GOOD, fds := res.fds,
          calls := OSCall.accept rfd.fd :: res.calls }
  else { status := UA_STATUSCODE_GOOD, fds := fds, calls := [] }

/-- A value of a `UA_KeyValueMap` entry, by its data type: a `UInt16` scalar, a
`String` scalar, or anything else. -/
inductive UA_Variant where
  | uint16 (value : Nat)
  | string (value : String)
  | other
  deriving DecidableEq, Repr

/-- The parameters `UA_KeyValueMap` of an open request: keys (names in namespace 0)
with their values. -/
abbrev UA_KeyValueMap := List (String × UA_Variant)

/-- Modelled from the spec: `UA_KeyValueMap_getScalar` is not under `src/`; by
section 6 the parameters are `port: uint16` and `address: string`. The lookup with
`UA_TYPES_UINT16` gives the scalar stored under the key when it is a `UInt16`,
`none` (a `NULL` pointer) otherwise. -/
def UA_KeyValueMap_getScalar_UInt16 (params : UA_KeyValueMap) (key : String) : Option Nat :=
  match params.lookup key with
  | some (UA_Variant.uint16 value) => some value
  | _ => none

/-- Modelled from the spec: the lookup of `UA_KeyValueMap_getScalar` with
`UA_TYPES_STRING`: the scalar stored under the key when it is a `String`, `none`
otherwise. -/
def UA_KeyValueMap_getScalar_String (params : UA_KeyValueMap) (key : String) : Option String :=
  match params.lookup key with
  | some (UA_Variant.string value) => some value
  | _ => none

/-- What the environment answers during `TCP_openListenConnection`: the return values
of `socket`, `setsockopt`, `bind` and `listen`, whether `UA_calloc` succeeds, and the
answers to the registration. -/
structure OpenOS where
  socket : Int
  setsockopt : Int
  bind : Int
  listen : Int
  calloc : Bool
  register : RegisterOS
  deriving DecidableEq, Repr

/-- The function `TCP_openListenConnection` (`eventloop_stm32_tcp.c`, lines 131-209),
on the registry of the manager's reactor. -/
def TCP_openListenConnection (fds : List UA_RegisteredFD) (params : UA_KeyValueMap)
    (application context : Nat) (os : OpenOS) : TCPResult :=
  match UA_KeyValueMap_getScalar_UInt16 params "port" with
  | none => { status := UA_STATUSCODE_BADINVALIDARGUMENT, fds := fds, calls := [] }
  | some port =>
    let listenSocket := os.socket
    if listenSocket = -1 then
      { status := UA_STATUSCODE_BADINTERNALERROR, fds := fds, calls := [OSCall.socket] }
    else
      let opened := [OSCall.socket, OSCall.setsockopt listenSocket,
        OSCall.bind listenSocket port]
      if os.bind = -1 then
        { status := UA_STATUSCODE_BADINTERNALERROR, fds := fds,
          calls := opened ++ [OSCall.close listenSocket] }
      else if os.listen = -1 then
        { status := UA_STATUSCODE_BADINTERNALERROR, fds := fds,
          calls := opened ++ [OSCall.listen listenSocket 5, OSCall.close listenSocket] }
      else if !os.calloc then
        { status := UA_STATUSCODE_BADOUTOFMEMORY, fds := fds,
          calls := opened ++ [OSCall.listen listenSocket 5, OSCall.close listenSocket] }
      else
        let rfd : UA_RegisteredFD :=
          { fd := listenSocket, listenEvents := UA_FDEVENT_IN,
            callback := UA_FDCallback.listenSocket,
            application := { connection := none, application := application,
                             context := context } }
        let res := TCP_registerListenSocket fds rfd os.register
        if res.status ≠ UA_STATUSCODE_GOOD then
          { status := res.status, fds := res.fds,
            calls := opened ++ [OSCall.listen listenSocket 5] ++ res.calls ++
              [OSCall.close listenSocket] }
        else
          { status := UA_STATUSCODE_GOOD, fds := res.fds,
            calls := opened ++ [OSCall.listen listenSocket 5] ++ res.calls }

/-- The wildcard address of `TCP_openConnection` (`eventloop_stm32_tcp.c`, line 219). -/
def wildcardAddress : String := "opc.tcp://0.0.0.0"

/-- The function `TCP_openConnection` (`eventloop_stm32_tcp.c`, lines 211-226). -/
def TCP_openConnection (fds : List UA_RegisteredFD) (params : UA_KeyValueMap)
    (application context : Nat) (os : OpenOS) : TCPResult :=
  let address := UA_KeyValueMap_getScalar_String params "address"
  if address = none ∨ address = some wildcardAddress then
    TCP_openListenConnection fds params application context os
  else { status := UA_STATUSCODE_BADNOTIMPLEMENTED, fds := fds, calls := [] }

/-- The function `TCP_free` (`eventloop_stm32_tcp.c`, lines 228-241): the calls it
makes, in order, over the registry of the manager's reactor. -/
def TCP_free (fds : List UA_RegisteredFD) : List OSCall :=
  fds.filterMap (fun rfd =>
      if rfd.fd ≠ UA_INVALID_FD then some (OSCall.close rfd.fd) else none) ++
    [OSCall.UA_free_tcm]

/-- Whether a call is a call of `accept`. -/
def OSCall.isAccept : OSCall → Bool
  | OSCall.accept _ => true
  | _ => false

/-- The descriptor that the listen-socket callback builds for an accepted socket
(`eventloop_stm32_tcp.c`, lines 114-117). -/
def acceptedRFD (listener : UA_RegisteredFD) (client_socket : Int) : UA_RegisteredFD :=
  { fd := client_socket, listenEvents := UA_FDEVENT_IN,
    callback := UA_FDCallback.connectionSocket, application := listener.application }

/-! ## Creating and freeing the reactor -/

/-- A release made by `UA_EventLoopSTM32_free` or `UA_EventLoop_new_STM32`, as it
appears in program order. -/
inductive FreeCall where
  | vQueueDelete
  | vSemaphoreDelete
  | UA_EventLoopPOSIX_free
  | UA_free
  deriving DecidableEq, Repr

/-- The releases of `UA_EventLoopSTM32_free` once `stop()` has returned
(`eventloop_stm32.c`, lines 260-270): the queue and the semaphore when their handles
are not `NULL`, then the base event loop, then the reactor's storage. -/
def freeCalls (eventQueue stopSemaphore : Bool) : List FreeCall :=
  (if eventQueue then [FreeCall.vQueueDelete] else []) ++
    (if stopSemaphore then [FreeCall.vSemaphoreDelete] else []) ++
    [FreeCall.UA_EventLoopPOSIX_free, FreeCall.UA_free]

/-- A reactor object at some address together with the process-wide pointer
`g_eventLoop` (the address it holds, `none` for `NULL`) and a caller of
`UA_EventLoopSTM32_free`: `sys` holds the reactor, its task and the caller's progress
through `stop()`; `eventQueue` and `stopSemaphore` tell whether the two handles are
not `NULL`; `calls` are the releases made so far; `returned` tells whether `free()`
has returned. -/
structure Firmware where
  sys : System
  address : Nat
  eventQueue : Bool
  stopSemaphore : Bool
  g_eventLoop : Option Nat
  calls : List FreeCall
  returned : Bool
  deriving DecidableEq, Repr

/-- The function `UA_EventLoopSTM32_free` (`eventloop_stm32.c`, lines 255-273), one
scheduling step of its caller at a time: first the steps of `stop()`; once `stop()`
has returned, the releases and `g_eventLoop = NULL`. A caller that is suspended, or
whose call has returned, leaves everything as it is. -/
def UA_EventLoopSTM32_free (cb : CallbackEffect) (p : Firmware) : Firmware :=
  if p.returned then p
  else if p.sys.stop = StopPc.returned then
    { p with
      calls := p.calls ++ freeCalls p.eventQueue p.stopSemaphore
      g_eventLoop := none
      returned := true }
  else { p with sys := System.step cb p.sys Action.stop }

/-- A scheduling decision: the caller of `free()` runs until its next suspension
point, the reactor task runs one loop test, or the network interrupt fires. -/
inductive FirmwareAction where
  | free
  | task (os : PassInput)
  | networkStatus (connected : Bool)
  deriving DecidableEq, Repr

/-- One scheduling decision applied to the firmware. The interrupt handler reaches
the reactor only when `g_eventLoop` holds its address. -/
def Firmware.step (cb : CallbackEffect) (p : Firmware) : FirmwareAction → Firmware
  | .free => UA_EventLoopSTM32_free cb p
  | .task os => { p with sys := System.step cb p.sys (Action.task os) }
  | .networkStatus connected =>
    match STM32_NetworkStatusCallback
        (if p.g_eventLoop = some p.address then some p.sys.el else none) connected with
    | none => p
    | some el => { p with sys := { p.sys with el := el } }

/-- A schedule applied to the firmware, first decision first. -/
def Firmware.exec (cb : CallbackEffect) (p : Firmware) (schedule : List FirmwareAction) :
    Firmware :=
  schedule.foldl (Firmware.step cb) p

/-- An example reactor: fresh, empty registry, empty queue, semaphore not given. -/
def exampleEL : UA_EventLoopSTM32 :=
  { state := UA_EVENTLOOPSTATE_FRESH, fds := [], loopTasks := 0, eventQueue := [],
    stopSemaphore := false, useWatchdog := false, watchdogTimeout := 1000 }

/-- An example system around a reactor: its task in the loop, a caller about to
enter `stop()`, `g_eventLoop` pointing to the reactor. -/
def exampleSystem (el : UA_EventLoopSTM32) : System :=
  { el := el, g_eventLoop := true, task := TaskPc.looping, lastWatchdogRefresh := 0,
    passes := 0, stop := StopPc.entry, stopSent := 0, stopTaken := 0 }

/-- An example connection manager: the result of
`UA_ConnectionManager_new_TCP_STM32(el, 0, 0)`. -/
def exampleTCM : UA_TCPConnectionManager :=
  { sendBufferSize := 8192, recvBufferSize := 8192, connectTimeout := 10000 }

/-- An example accepted descriptor on handle 7 with an owning connection. -/
def exampleRFD : UA_RegisteredFD :=
  { fd := 7, listenEvents := UA_FDEVENT_IN, callback := UA_FDCallback.connectionSocket,
    application := { connection := some 1, application := 2, context := 3 } }

/-- An example listening descriptor on handle 5. -/
def exampleListener : UA_RegisteredFD :=
  { fd := 5, listenEvents := UA_FDEVENT_IN, callback := UA_FDCallback.listenSocket,
    application := { connection := none, application := 2, context := 3 } }

/-- An example started reactor with the listener and one accepted descriptor. -/
def exampleStartedEL : UA_EventLoopSTM32 :=
  { exampleEL with
    state := UA_EVENTLOOPSTATE_STARTED, fds := [exampleListener, exampleRFD], loopTasks := 1 }

/-- A pass input in which `select` reports one ready handle: 7 is readable. -/
def readyPass : PassInput :=
  { idlePass with selectResult := 1, readable := [7] }

/-- A NetworkStatusChanged(connected) event as the interrupt handler builds it. -/
def networkUpEvent : UA_STM32Event :=
  { type := STM32_EVENT_NETWORK_STATUS, data := none, param := 1 }

/-- Example answers to a registration: both `fcntl` calls succeed and the registry
has storage. -/
def exampleRegisterOS : RegisterOS := { getfl := 0, setfl := 0, storage := true }

/-- Example answers to the listen-socket callback: `accept` returns socket 8, the
allocation and the registration succeed. -/
def exampleAcceptOS : AcceptOS := { accept := 8, calloc := true, register := exampleRegisterOS }

/-- Example parameters of an open request: port 4840, no address. -/
def exampleParams : UA_KeyValueMap := [("port", UA_Variant.uint16 4840)]

/-- Example answers to `TCP_openListenConnection`: `socket` returns 5 and every step
succeeds. -/
def exampleOpenOS : OpenOS :=
  { socket := 5, setsockopt := 0, bind := 0, listen := 0, calloc := true,
    register := exampleRegisterOS }

/-- The descriptor that `TCP_openListenConnection` builds for its listening socket
(`eventloop_stm32_tcp.c`, lines 191-195). -/
def listenRFD (listenSocket : Int) (application context : Nat) : UA_RegisteredFD :=
  { fd := listenSocket, listenEvents := UA_FDEVENT_IN, callback := UA_FDCallback.listenSocket,
    application := { connection := none, application := application, context := context } }

/-- An example descriptor on handle 9 that another component has registered with its
own callback. -/
def otherRFD : UA_RegisteredFD :=
  { fd := 9, listenEvents := UA_FDEVENT_IN, callback := UA_FDCallback.other 1,
    application := { connection := none, application := 4, context := 5 } }

/-- The NetworkStatusChanged event that `STM32_NetworkStatusCallback` builds
(`eventloop_stm32.c`, lines 341-345). -/
def networkStatusEvent (connected : Bool) : UA_STM32Event :=
  { type := STM32_EVENT_NETWORK_STATUS, data := none, param := if connected then 1 else 0 }

/-- An example callback effect that shows in the registry: every call registers one
more descriptor, on the handle after the one it was called for. -/
def registeringEffect : CallbackEffect :=
  fun rfd _ registry => FDTree_insert (acceptedRFD rfd (rfd.fd + 1)) registry

/-- An example started reactor with a Stop event at the head of its queue and a
NetworkStatusChanged event behind it. -/
def stopQueuedEL : UA_EventLoopSTM32 :=
  { exampleStartedEL with eventQueue := [stopEvent, networkUpEvent] }

/-- An example reactor whose event queue holds its 16 events. -/
def fullQueueEL : UA_EventLoopSTM32 :=
  { exampleStartedEL with eventQueue := List.replicate 16 networkUpEvent }

/-- An example firmware around a reactor at address 1: `g_eventLoop` points to it, both
handles exist, and a caller is about to enter `free()`. -/
def exampleFirmware (el : UA_EventLoopSTM32) : Firmware :=
  { sys := exampleSystem el, address := 1, eventQueue := true, stopSemaphore := true,
    g_eventLoop := some 1, calls := [], returned := false }

/-- C1: `start()` returns BadInternalError exactly when the lifecycle state at the
call is neither Fresh nor Stopped, and then the reactor is left as it was: no loop
task is created and the lifecycle state is unchanged. -/
theorem start_internalError_iff (el : UA_EventLoopSTM32) (taskCreated : Bool) :
    ((UA_EventLoopSTM32_start el taskCreated).1 = UA_STATUSCODE_BADINTERNALERROR ↔
      (el.state ≠ UA_EVENTLOOPSTATE_FRESH ∧ el.state ≠ UA_EVENTLOOPSTATE_STOPPED)) ∧
    ((UA_EventLoopSTM32_start el taskCreated).1 = UA_STATUSCODE_BADINTERNALERROR →
      (UA_EventLoopSTM32_start el taskCreated).2 = el ∧
      (UA_EventLoopSTM32_start el taskCreated).2.loopTasks = el.loopTasks ∧
      (UA_EventLoopSTM32_start el taskCreated).2.state = el.state) := by
  unfold UA_EventLoopSTM32_start
  by_cases h : el.state ≠ UA_EVENTLOOPSTATE_FRESH ∧ el.state ≠ UA_EVENTLOOPSTATE_STOPPED
  · simp [h]
  · cases taskCreated <;> simp [h]

/-- Witness for `start_internalError_iff`: a started reactor. -/
theorem start_internalError_iff_witness :
    (UA_EventLoopSTM32_start { exampleEL with state := UA_EVENTLOOPSTATE_STARTED } true).1
        = UA_STATUSCODE_BADINTERNALERROR ∧
      (UA_EventLoopSTM32_start { exampleEL with state := UA_EVENTLOOPSTATE_STARTED } true).2
        = { exampleEL with state := UA_EVENTLOOPSTATE_STARTED } := by
  have h := start_internalError_iff { exampleEL with state := UA_EVENTLOOPSTATE_STARTED } true
  have h1 : (UA_EventLoopSTM32_start { exampleEL with state := UA_EVENTLOOPSTATE_STARTED } true).1
      = UA_STATUSCODE_BADINTERNALERROR := h.1.2 (by decide)
  exact ⟨h1, (h.2 h1).1⟩

/-- C3: `stop()` on a reactor whose lifecycle state is not Started returns at once and
is a no-op: the reactor (lifecycle state, event queue, stop semaphore and all the
rest) is unchanged, no Stop event is queued and the semaphore is not taken. -/
theorem stop_noop_unless_started (cb : CallbackEffect) (s : System)
    (hentry : s.stop = StopPc.entry) (hstate : s.el.state ≠ UA_EVENTLOOPSTATE_STARTED) :
    UA_EventLoopSTM32_stop StopPc.entry s.el = some (StopPc.returned, s.el) ∧
      (System.step cb s Action.stop).stop = StopPc.returned ∧
      (System.step cb s Action.stop).el = s.el ∧
      (System.step cb s Action.stop).el.state = s.el.state ∧
      (System.step cb s Action.stop).el.eventQueue = s.el.eventQueue ∧
      (System.step cb s Action.stop).el.stopSemaphore = s.el.stopSemaphore ∧
      (System.step cb s Action.stop).stopSent = s.stopSent ∧
      (System.step cb s Action.stop).stopTaken = s.stopTaken := by
  have h : UA_EventLoopSTM32_stop StopPc.entry s.el = some (StopPc.returned, s.el) := by
    simp [UA_EventLoopSTM32_stop, hstate]
  simp [System.step, hentry, h]

/-- Witness for `stop_noop_unless_started`: a fresh reactor. -/
theorem stop_noop_unless_started_witness :
    (System.step noEffect (exampleSystem exampleEL) Action.stop).stop = StopPc.returned ∧
      (System.step noEffect (exampleSystem exampleEL) Action.stop).el = exampleEL :=
  have h := stop_noop_unless_started noEffect (exampleSystem exampleEL) rfl (by decide)
  ⟨h.2.1, h.2.2.1⟩

/-- C4: `run(timeout)` on a Fresh reactor first performs `start()`. If `start` fails,
`run` returns exactly the status of `start` without reaching its wait; if `start`
succeeds and `timeout` is 0, `run` returns Good at once, the state is Started and the
stop semaphore has not been taken. -/
theorem run_fresh (el : UA_EventLoopSTM32) (timeout : Nat) (taskCreated expired : Bool)
    (hfresh : el.state = UA_EVENTLOOPSTATE_FRESH) :
    ((UA_EventLoopSTM32_start el taskCreated).1 ≠ UA_STATUSCODE_GOOD →
        UA_EventLoopSTM32_run timeout taskCreated expired RunPc.entry el =
          some (RunPc.returned (UA_EventLoopSTM32_start el taskCreated).1,
            (UA_EventLoopSTM32_start el taskCreated).2)) ∧
      ((UA_EventLoopSTM32_start el taskCreated).1 = UA_STATUSCODE_GOOD → timeout = 0 →
        UA_EventLoopSTM32_run timeout taskCreated expired RunPc.entry el =
            some (RunPc.returned UA_STATUSCODE_GOOD, (UA_EventLoopSTM32_start el taskCreated).2) ∧
          (UA_EventLoopSTM32_start el taskCreated).2.state = UA_EVENTLOOPSTATE_STARTED ∧
          (UA_EventLoopSTM32_start el taskCreated).2.stopSemaphore = el.stopSemaphore ∧
          (UA_EventLoopSTM32_start el taskCreated).2.eventQueue = el.eventQueue) ∧
      ((UA_EventLoopSTM32_start el taskCreated).1 = UA_STATUSCODE_GOOD ↔ taskCreated = true) := by
  refine ⟨?_, ?_, ?_⟩
  · intro h
    simp [UA_EventLoopSTM32_run, hfresh, h]
  · intro h ht
    refine ⟨by simp [UA_EventLoopSTM32_run, hfresh, h, ht], ?_⟩
    cases taskCreated <;> simp_all [UA_EventLoopSTM32_start]
  · cases taskCreated <;> simp [UA_EventLoopSTM32_start, hfresh]

/-- Witness for `run_fresh`: a fresh reactor whose task is created, `timeout` 0. -/
theorem run_fresh_witness :
    UA_EventLoopSTM32_run 0 true false RunPc.entry exampleEL =
      some (RunPc.returned UA_STATUSCODE_GOOD, (UA_EventLoopSTM32_start exampleEL true).2) :=
  ((run_fresh exampleEL 0 true false rfl).2.1 (by decide) rfl).1

/-- A 64-bit difference that does not overflow is its own two's complement value. -/
theorem wrapInt64_eq (x : Int) (hlo : -9223372036854775808 ≤ x) (hhi : x < 9223372036854775808) :
    wrapInt64 x = x := by
  unfold wrapInt64
  norm_num
  omega

/-- Every deadline at least `UA_UINT32_MAX / UA_DATETIME_MSEC` = 429496 units (about
43 ms) ahead of `now` gets the default wait of 100 ms. -/
theorem Task_timeout_far (now nextTimer : Int) (hne : nextTimer ≠ UA_INT64_MAX)
    (hfar : 429496 ≤ nextTimer - now) (hhi : nextTimer - now < 9223372036854775808) :
    Task_timeout now nextTimer = 100 := by
  have hw := wrapInt64_eq (nextTimer - now) (by omega) hhi
  have h1 : ¬ (nextTimer - now < 0) := by omega
  have h2 : ¬ (nextTimer - now < (UA_UINT32_MAX : Int) / UA_DATETIME_MSEC) := by
    have : (UA_UINT32_MAX : Int) / UA_DATETIME_MSEC = 429496 := by decide
    rw [this]
    omega
  simp [Task_timeout, hne, hw, h1, h2]

/-- C7 (code at the failing input): with `now = 0` and a next deadline 50 ms ahead
(500000 units of 100 ns) the pass computes a wait of 100 ms, not
`floor((d - now) / 1 ms) = 50`. The bound tested is `UA_UINT32_MAX / UA_DATETIME_MSEC`
= 429496 units (about 43 ms): a deadline 42 ms ahead gets a wait of 42 ms, a
deadline 429496 units ahead already gets the default of 100 ms. -/
theorem timeout_deadline_50ms :
    Task_timeout 0 500000 = 100 ∧ ((500000 - 0 : Int) / UA_DATETIME_MSEC) = 50 ∧
      (UA_UINT32_MAX : Int) / UA_DATETIME_MSEC = 429496 ∧
      Task_timeout 0 420000 = 42 ∧ Task_timeout 0 429496 = 100 ∧
      (Task_pass noEffect { idlePass with nextTimer := 500000 } 0 exampleEL).wait
        = WaitCall.vTaskDelay 100 := by
  decide

/-- C8: when the timer engine reports no pending deadline (`UA_INT64_MAX`), the wait
computed by the pass is 100 ms, whatever `now` and the registry are: the pass blocks
in `select` with a timeval of 0 s and 100000 us, or, with no handle to watch, in
`vTaskDelay(pdMS_TO_TICKS(100))`. -/
theorem timeout_default_100ms (cb : CallbackEffect) (os : PassInput) (last : Nat)
    (el : UA_EventLoopSTM32) :
    Task_timeout os.now UA_INT64_MAX = 100 ∧
      (Task_pass cb { os with nextTimer := UA_INT64_MAX } last el).timeout = 100 ∧
      ((Task_pass cb { os with nextTimer := UA_INT64_MAX } last el).wait =
          WaitCall.select ((setFDSetsFromFDTree el).2.2 + 1) 0 100000 ∨
        (Task_pass cb { os with nextTimer := UA_INT64_MAX } last el).wait =
          WaitCall.vTaskDelay 100) := by
  have h : ∀ now, Task_timeout now UA_INT64_MAX = 100 := by
    intro now
    simp [Task_timeout]
  refine ⟨h _, by simp [Task_pass, h], ?_⟩
  by_cases hm : (setFDSetsFromFDTree el).2.2 ≠ UA_INVALID_FD
  · left
    simp [Task_pass, h, hm]
  · right
    simp [Task_pass, h, hm]

/-- The return value of `recv` is at most the length asked for, and the buffer holds
exactly the bytes received. -/
theorem recv_le (sock : SocketInput) (len : Nat) :
    (recv sock len).received ≤ len ∧
      (0 < (recv sock len).received →
        ((recv sock len).buffer.length : Int) = (recv sock len).received) := by
  cases sock with
  | pending first more =>
    have hlen : ((first :: more).take len).length ≤ len := by
      rw [List.length_take]
      exact Nat.min_le_left _ _
    simp only [recv]
    refine ⟨?_, by simp⟩
    exact_mod_cast hlen
  | closed => simp [recv]
  | failed errno =>
    simp only [recv]
    refine ⟨by omega, fun h => absurd h (by decide)⟩

/-- C9: the connected-socket callback returns BadConnectionClosed exactly when the
error bit is set in the event mask, or the readable bit is set and its read returns
0, or that read fails with an errno other than EAGAIN and EWOULDBLOCK; otherwise it
returns Good. With the error bit set no read is attempted; a read is made (once,
with the manager's buffer size) exactly when the error bit is clear and the readable
bit is set. -/
theorem connectionCallback_closed_iff (tcm : UA_TCPConnectionManager) (rfd : UA_RegisteredFD)
    (event : Nat) (sock : SocketInput) :
    ((TCP_connectionSocketCallback tcm rfd event sock).status
          = UA_STATUSCODE_BADCONNECTIONCLOSED ↔
        (event &&& UA_FDEVENT_ERR ≠ 0 ∨
          (event &&& UA_FDEVENT_IN ≠ 0 ∧ ∃ r,
            (TCP_connectionSocketCallback tcm rfd event sock).read = some r ∧
              (r.received = 0 ∨
                (r.received < 0 ∧ r.errno ≠ EAGAIN ∧ r.errno ≠ EWOULDBLOCK))))) ∧
      ((TCP_connectionSocketCallback tcm rfd event sock).status
          ≠ UA_STATUSCODE_BADCONNECTIONCLOSED →
        (TCP_connectionSocketCallback tcm rfd event sock).status = UA_STATUSCODE_GOOD) ∧
      (event &&& UA_FDEVENT_ERR ≠ 0 →
        (TCP_connectionSocketCallback tcm rfd event sock).read = none) ∧
      ((TCP_connectionSocketCallback tcm rfd event sock).read =
        if event &&& UA_FDEVENT_ERR = 0 ∧ event &&& UA_FDEVENT_IN ≠ 0
        then some (recv sock tcm.recvBufferSize) else none) := by
  unfold TCP_connectionSocketCallback
  by_cases herr : event &&& UA_FDEVENT_ERR ≠ 0
  · simp [herr]
  · have herr0 : event &&& UA_FDEVENT_ERR = 0 := not_not.mp herr
    by_cases hin : event &&& UA_FDEVENT_IN ≠ 0
    · by_cases hpos : (recv sock tcm.recvBufferSize).received > 0
      · have h0 : (recv sock tcm.recvBufferSize).received ≠ 0 := by omega
        have hneg : ¬ (recv sock tcm.recvBufferSize).received < 0 := by omega
        cases hc : rfd.application.connection <;>
          simp [herr0, hin, hpos, h0, hneg]
      · by_cases hz : (recv sock tcm.recvBufferSize).received = 0
        · simp [herr0, hin, hz]
        · have hneg : (recv sock tcm.recvBufferSize).received < 0 := by omega
          by_cases h1 : (recv sock tcm.recvBufferSize).errno = EAGAIN <;>
            by_cases h2 : (recv sock tcm.recvBufferSize).errno = EWOULDBLOCK <;>
            simp [herr0, hin, hpos, hz, hneg, h1, h2]
    · have hin0 : event &&& UA_FDEVENT_IN = 0 := not_not.mp hin
      simp [herr0, hin0]

/-- C10: when the error bit is clear, the readable bit is set, the read returns
`n > 0` bytes and the owning connection is present, the connected-socket callback
invokes the application's receive callback exactly once, with the `n` bytes read
(a sequence of length `n`) and the descriptor's context, and `n` is at most the
manager's receive-buffer size; in every other invocation the receive callback is not
invoked. A manager created with receive-buffer size 0 has size 8192. -/
theorem connectionCallback_receive (tcm : UA_TCPConnectionManager) (rfd : UA_RegisteredFD)
    (event : Nat) (sock : SocketInput) :
    (∀ connection : Nat,
        event &&& UA_FDEVENT_ERR = 0 → event &&& UA_FDEVENT_IN ≠ 0 →
        0 < (recv sock tcm.recvBufferSize).received →
        rfd.application.connection = some connection →
        (TCP_connectionSocketCallback tcm rfd event sock).receiveCalls =
            [{ connection := connection, message := (recv sock tcm.recvBufferSize).buffer,
               context := rfd.application.context }] ∧
          (TCP_connectionSocketCallback tcm rfd event sock).read
            = some (recv sock tcm.recvBufferSize) ∧
          (TCP_connectionSocketCallback tcm rfd event sock).status = UA_STATUSCODE_GOOD ∧
          ((recv sock tcm.recvBufferSize).buffer.length : Int)
            = (recv sock tcm.recvBufferSize).received ∧
          (recv sock tcm.recvBufferSize).received ≤ tcm.recvBufferSize) ∧
      (¬ (event &&& UA_FDEVENT_ERR = 0 ∧ event &&& UA_FDEVENT_IN ≠ 0 ∧
            0 < (recv sock tcm.recvBufferSize).received ∧
            rfd.application.connection ≠ none) →
        (TCP_connectionSocketCallback tcm rfd event sock).receiveCalls = []) ∧
      (∀ sendBufferSize recvBufferSize : Nat,
        (UA_ConnectionManager_new_TCP_STM32 true sendBufferSize recvBufferSize).map
            (fun m => m.recvBufferSize)
          = some (if recvBufferSize = 0 then 8192 else recvBufferSize)) := by
  refine ⟨?_, ?_, ?_⟩
  · intro connection herr hin hpos hconn
    have hle := recv_le sock tcm.recvBufferSize
    have hlen := hle.2 hpos
    have htake : List.take (recv sock tcm.recvBufferSize).received.toNat
        (recv sock tcm.recvBufferSize).buffer = (recv sock tcm.recvBufferSize).buffer := by
      apply List.take_of_length_le
      omega
    refine ⟨?_, ?_, ?_, hlen, hle.1⟩ <;>
      simp [TCP_connectionSocketCallback, herr, hin, hpos, hconn, htake]
  · intro h
    unfold TCP_connectionSocketCallback
    by_cases herr : event &&& UA_FDEVENT_ERR = 0
    · by_cases hin : event &&& UA_FDEVENT_IN = 0
      · simp [herr, hin]
      · by_cases hpos : 0 < (recv sock tcm.recvBufferSize).received
        · have hc : rfd.application.connection = none := by
            by_contra hc
            exact h ⟨herr, hin, hpos, hc⟩
          simp [herr, hin, hpos, hc]
        · by_cases hz : (recv sock tcm.recvBufferSize).received = 0 <;>
            by_cases h1 : (recv sock tcm.recvBufferSize).errno = EAGAIN <;>
            by_cases h2 : (recv sock tcm.recvBufferSize).errno = EWOULDBLOCK <;>
            simp [herr, hin, hpos, hz, h1, h2]
    · simp [herr]
  · intro sendBufferSize recvBufferSize
    by_cases h : recvBufferSize = 0 <;> simp [UA_ConnectionManager_new_TCP_STM32, h]

/-- Witness for `connectionCallback_receive`: five bytes queued on the example
descriptor are delivered once, as they are. -/
theorem connectionCallback_receive_witness :
    (TCP_connectionSocketCallback exampleTCM exampleRFD UA_FDEVENT_IN
        (SocketInput.pending 1 [2, 3, 4, 5])).receiveCalls =
      [{ connection := 1, message := [1, 2, 3, 4, 5], context := 3 }] :=
  ((connectionCallback_receive exampleTCM exampleRFD UA_FDEVENT_IN
      (SocketInput.pending 1 [2, 3, 4, 5])).1 1 (by decide) (by decide) (by decide) rfl).1

/-- The mask computed for a handle has the readable bit exactly when the handle is in
the read set, the writable bit exactly when it is in the write set, never the error
bit, and is 0 exactly when the handle is in neither set. -/
theorem Task_events_bits (readset writeset : List Int) (fd : Int) :
    (Task_events readset writeset fd &&& UA_FDEVENT_IN ≠ 0 ↔ fd ∈ readset) ∧
      (Task_events readset writeset fd &&& UA_FDEVENT_OUT ≠ 0 ↔ fd ∈ writeset) ∧
      (Task_events readset writeset fd ≠ 0 ↔ (fd ∈ readset ∨ fd ∈ writeset)) ∧
      Task_events readset writeset fd &&& UA_FDEVENT_ERR = 0 := by
  by_cases hr : fd ∈ readset <;> by_cases hw : fd ∈ writeset <;>
    simp [Task_events, FD_ISSET, hr, hw, UA_FDEVENT_IN, UA_FDEVENT_OUT, UA_FDEVENT_ERR] <;>
    decide

/-- The invocations of a sweep are those of the visited descriptors whose mask is not
0, each with its mask, in the order visited, whatever the callbacks do to the
registry. -/
theorem processSocketEvents_callbacks (cb : CallbackEffect) (readset writeset : List Int) :
    ∀ (visit registry : List UA_RegisteredFD),
      (Task_processSocketEvents cb readset writeset visit registry).1 =
        visit.filterMap (fun rfd =>
          if Task_events readset writeset rfd.fd ≠ 0
          then some (rfd, Task_events readset writeset rfd.fd) else none) := by
  intro visit
  induction visit with
  | nil => intro registry; rfl
  | cons rfd rest ih =>
    intro registry
    by_cases h : Task_events readset writeset rfd.fd = 0
    · simp [Task_processSocketEvents, h, ih]
    · simp [Task_processSocketEvents, h, ih]

/-- The callbacks of a pass: none unless `selectResult` is positive, else those of the
sweep over the registry with the sets left by the wait. -/
theorem pass_callbacks (cb : CallbackEffect) (os : PassInput) (last : Nat)
    (el : UA_EventLoopSTM32) :
    (Task_pass cb os last el).callbacks =
      if 0 < (Task_pass cb os last el).selectResult then
        el.fds.filterMap (fun rfd =>
          if Task_events (Task_pass cb os last el).readset
              (Task_pass cb os last el).writeset rfd.fd ≠ 0
          then some (rfd, Task_events (Task_pass cb os last el).readset
              (Task_pass cb os last el).writeset rfd.fd) else none)
      else [] := by
  simp only [Task_pass, gt_iff_lt]
  by_cases hm : (setFDSetsFromFDTree el).2.2 ≠ UA_INVALID_FD
  · by_cases hpos : 0 < (select (setFDSetsFromFDTree el).1 (setFDSetsFromFDTree el).2.1 os).1
    · simp [hm, hpos, processSocketEvents_callbacks]
    · simp [hm, hpos]
  · simp [hm]

/-- Membership in the invocations of a sweep: a visited descriptor with a mask other
than 0, paired with that mask. -/
theorem mem_sweep_iff (readset writeset : List Int) (visit : List UA_RegisteredFD)
    (c : UA_RegisteredFD × Nat) :
    c ∈ visit.filterMap (fun rfd =>
          if Task_events readset writeset rfd.fd ≠ 0
          then some (rfd, Task_events readset writeset rfd.fd) else none) ↔
      (c.1 ∈ visit ∧ c.2 = Task_events readset writeset c.1.fd ∧ c.2 ≠ 0) := by
  rw [List.mem_filterMap]
  constructor
  · rintro ⟨rfd, hmem, heq⟩
    by_cases h : Task_events readset writeset rfd.fd = 0
    · simp [h] at heq
    · simp only [ne_eq, h, not_false_eq_true, if_true, Option.some.injEq] at heq
      subst heq
      exact ⟨hmem, rfl, h⟩
  · rintro ⟨hmem, heq, hne⟩
    refine ⟨c.1, hmem, ?_⟩
    rw [heq] at hne
    simp only [ne_eq, hne, not_false_eq_true, if_true, Option.some.injEq]
    exact Prod.ext rfl heq.symm

/-- The descriptors invoked by a sweep, in order, form a sublist of the visited ones. -/
theorem sweep_sublist (readset writeset : List Int) (visit : List UA_RegisteredFD) :
    ((visit.filterMap (fun rfd =>
          if Task_events readset writeset rfd.fd ≠ 0
          then some (rfd, Task_events readset writeset rfd.fd) else none)).map
        (fun c => c.1)).Sublist visit := by
  induction visit with
  | nil => simp
  | cons rfd rest ih =>
    by_cases h : Task_events readset writeset rfd.fd = 0
    · simp only [List.filterMap_cons, h, ne_eq, not_true_eq_false, if_false]
      exact List.Sublist.cons _ ih
    · simp only [List.filterMap_cons, h, ne_eq, not_false_eq_true, if_true, List.map_cons]
      exact List.Sublist.cons₂ _ ih

/-- The drain takes the oldest event, if any, off the queue, leaves the registry and
every other field but the state alone, and sets the state to Stopped exactly on a
Stop event. -/
theorem checkEvents_eq (el : UA_EventLoopSTM32) :
    (Task_checkEvents el).2 = el.eventQueue.head? ∧
      (Task_checkEvents el).1 =
        { el with
          eventQueue := el.eventQueue.tail
          state :=
            if el.eventQueue.head?.map (fun e => e.type) = some STM32_EVENT_STOP
            then UA_EVENTLOOPSTATE_STOPPED else el.state } := by
  unfold Task_checkEvents xQueueReceive
  obtain ⟨state, fds, loopTasks, eventQueue, stopSemaphore, useWatchdog, watchdogTimeout⟩ := el
  cases eventQueue with
  | nil => simp
  | cons event rest =>
    cases ht : event.type <;> simp [ht]

/-- The registry that a sweep leaves is the result of the calls it lists, made in the
listed order, each on the registry left by the call before. -/
theorem processSocketEvents_fold (cb : CallbackEffect) (readset writeset : List Int) :
    ∀ (visit registry : List UA_RegisteredFD),
      (Task_processSocketEvents cb readset writeset visit registry).2 =
        (Task_processSocketEvents cb readset writeset visit registry).1.foldl
          (fun registry c => cb c.1 c.2 registry) registry := by
  intro visit
  induction visit with
  | nil => intro registry; rfl
  | cons rfd rest ih =>
    intro registry
    by_cases h : Task_events readset writeset rfd.fd = 0
    · simp only [Task_processSocketEvents, h, ne_eq, not_true_eq_false, if_false]
      exact ih registry
    · simp only [Task_processSocketEvents, h, ne_eq, not_false_eq_true, if_true,
        List.foldl_cons]
      exact ih _

/-- The registry that a pass leaves is the result of the calls it lists, made in the
listed order on the registry of before the pass, each on the registry left by the
call before. -/
theorem pass_registry_fold (cb : CallbackEffect) (os : PassInput) (last : Nat)
    (el : UA_EventLoopSTM32) :
    (Task_pass cb os last el).el.fds =
      (Task_pass cb os last el).callbacks.foldl (fun registry c => cb c.1 c.2 registry)
        el.fds := by
  simp only [Task_pass, checkEvents_eq]
  by_cases hm : (setFDSetsFromFDTree el).2.2 ≠ UA_INVALID_FD
  · by_cases hpos : (select (setFDSetsFromFDTree el).1 (setFDSetsFromFDTree el).2.1 os).1 > 0
    · simp only [hm, hpos, if_true, ne_eq, not_false_eq_true]
      exact processSocketEvents_fold cb _ _ _ _
    · simp [hm, hpos]
  · simp [hm]

/-- C5: in one pass, the callback of a descriptor registered when the pass starts is
invoked exactly when `selectResult` is positive and the handle is in the read set or
the write set left by the wait; the invoked descriptors, in order, are a sublist of
the registry, so each registered descriptor is invoked at most once, and with a
registry in which no handle occurs twice no handle is invoked twice; each invocation
is for a registered descriptor, with a mask that has the readable bit exactly when
the handle is in the read set and the writable bit exactly when it is in the write
set, and that is never 0; when `selectResult` is zero or negative no callback is
invoked. The invocations are the calls that the pass makes: for every effect `cb` of
a call, the registry that the pass leaves is the registry of before the pass after
the calls `cb rfd events` of the listed invocations, made in the listed order, each
on the registry left by the call before, and after nothing else. -/
theorem pass_dispatch (cb : CallbackEffect) (os : PassInput) (last : Nat)
    (el : UA_EventLoopSTM32) :
    (∀ rfd ∈ el.fds,
        ((∃ events, (rfd, events) ∈ (Task_pass cb os last el).callbacks) ↔
          (0 < (Task_pass cb os last el).selectResult ∧
            (rfd.fd ∈ (Task_pass cb os last el).readset ∨
              rfd.fd ∈ (Task_pass cb os last el).writeset)))) ∧
      (((Task_pass cb os last el).callbacks.map (fun c => c.1)).Sublist el.fds ∧
        ((el.fds.map (fun rfd => rfd.fd)).Nodup →
          ((Task_pass cb os last el).callbacks.map (fun c => c.1.fd)).Nodup)) ∧
      (∀ c ∈ (Task_pass cb os last el).callbacks,
        c.1 ∈ el.fds ∧
          (c.2 &&& UA_FDEVENT_IN ≠ 0 ↔ c.1.fd ∈ (Task_pass cb os last el).readset) ∧
          (c.2 &&& UA_FDEVENT_OUT ≠ 0 ↔ c.1.fd ∈ (Task_pass cb os last el).writeset) ∧
          c.2 ≠ 0) ∧
      ((Task_pass cb os last el).selectResult ≤ 0 →
        (Task_pass cb os last el).callbacks = []) ∧
      (Task_pass cb os last el).el.fds =
        (Task_pass cb os last el).callbacks.foldl (fun registry c => cb c.1 c.2 registry)
          el.fds := by
  have hfold := pass_registry_fold cb os last el
  have hcb := pass_callbacks cb os last el
  by_cases hpos : 0 < (Task_pass cb os last el).selectResult
  · rw [if_pos hpos] at hcb
    refine ⟨?_, ?_, ?_, ?_, hfold⟩
    · intro rfd hmem
      constructor
      · rintro ⟨events, hev⟩
        rw [hcb, mem_sweep_iff] at hev
        obtain ⟨_, heq, hne⟩ := hev
        simp only at heq hne
        rw [heq] at hne
        exact ⟨hpos, (Task_events_bits _ _ _).2.2.1.mp hne⟩
      · rintro ⟨_, hin⟩
        refine ⟨Task_events (Task_pass cb os last el).readset
          (Task_pass cb os last el).writeset rfd.fd, ?_⟩
        rw [hcb, mem_sweep_iff]
        exact ⟨hmem, rfl, (Task_events_bits _ _ _).2.2.1.mpr hin⟩
    · have hsub := sweep_sublist (Task_pass cb os last el).readset
        (Task_pass cb os last el).writeset el.fds
      rw [← hcb] at hsub
      refine ⟨hsub, fun hnodup => ?_⟩
      have hsub2 := hsub.map (fun rfd => rfd.fd)
      rw [List.map_map] at hsub2
      exact hnodup.sublist hsub2
    · intro c hc
      rw [hcb, mem_sweep_iff] at hc
      obtain ⟨hmem, heq, hne⟩ := hc
      refine ⟨hmem, ?_, ?_, hne⟩
      · rw [heq]; exact (Task_events_bits _ _ _).1
      · rw [heq]; exact (Task_events_bits _ _ _).2.1
    · intro hle
      omega
  · rw [if_neg hpos] at hcb
    refine ⟨?_, ?_, ?_, ?_, hfold⟩
    · intro rfd _
      rw [hcb]
      simp [hpos]
    · rw [hcb]
      simp
    · intro c hc
      rw [hcb] at hc
      simp at hc
    · intro _
      exact hcb

/-- Witness for `pass_dispatch`: with handles 5 and 7 registered and 7 readable, the
callback of the descriptor on handle 7 is invoked, and with callbacks that register
a descriptor on the next handle the pass leaves handles 5, 7 and 8 registered: the
one call for handle 7 has been made, and none for handle 5. -/
theorem pass_dispatch_witness :
    (∃ events, (exampleRFD, events) ∈
        (Task_pass registeringEffect readyPass 0 exampleStartedEL).callbacks) ∧
      (Task_pass registeringEffect readyPass 0 exampleStartedEL).el.fds =
        [exampleListener, exampleRFD, acceptedRFD exampleRFD 8] :=
  ⟨((pass_dispatch registeringEffect readyPass 0 exampleStartedEL).1 exampleRFD
      (by decide)).mpr ⟨by decide, by decide⟩,
    (pass_dispatch registeringEffect readyPass 0 exampleStartedEL).2.2.2.2.trans (by decide)⟩

/-- A sweep that invokes no callback leaves the registry as it is. -/
theorem processSocketEvents_registry (cb : CallbackEffect) (readset writeset : List Int) :
    ∀ (visit registry : List UA_RegisteredFD),
      (Task_processSocketEvents cb readset writeset visit registry).1 = [] →
      (Task_processSocketEvents cb readset writeset visit registry).2 = registry := by
  intro visit
  induction visit with
  | nil => intro registry _; rfl
  | cons rfd rest ih =>
    intro registry h
    by_cases he : Task_events readset writeset rfd.fd = 0
    · simp only [Task_processSocketEvents, he, ne_eq, not_true_eq_false, if_false] at h ⊢
      exact ih registry h
    · simp [Task_processSocketEvents, he] at h

/-- The reactor that a pass leaves, in terms of the reactor it starts from: the drain
applied after the sweep. -/
theorem pass_el (cb : CallbackEffect) (os : PassInput) (last : Nat) (el : UA_EventLoopSTM32) :
    (Task_pass cb os last el).received = el.eventQueue.head? ∧
      (Task_pass cb os last el).el.eventQueue = el.eventQueue.tail ∧
      (Task_pass cb os last el).el.state =
        (if el.eventQueue.head?.map (fun e => e.type) = some STM32_EVENT_STOP
         then UA_EVENTLOOPSTATE_STOPPED else el.state) ∧
      (Task_pass cb os last el).el.stopSemaphore = el.stopSemaphore ∧
      (Task_pass cb os last el).el.fds =
        (Task_pass cb os last { el with eventQueue := [] }).el.fds ∧
      ((Task_pass cb os last el).callbacks = [] → (Task_pass cb os last el).el.fds = el.fds) := by
  refine ⟨?_, ?_, ?_, ?_, ?_, ?_⟩
  · simp [Task_pass, checkEvents_eq]
  · simp [Task_pass, checkEvents_eq]
  · simp [Task_pass, checkEvents_eq]
  · simp [Task_pass, checkEvents_eq]
  · simp [Task_pass, checkEvents_eq, setFDSetsFromFDTree]
  · simp only [Task_pass, checkEvents_eq]
    by_cases hm : (setFDSetsFromFDTree el).2.2 ≠ UA_INVALID_FD
    · by_cases hpos : (select (setFDSetsFromFDTree el).1 (setFDSetsFromFDTree el).2.1 os).1 > 0
      · simp only [hm, hpos, if_true, ne_eq, not_false_eq_true]
        intro h
        exact processSocketEvents_registry _ _ _ _ _ h
      · simp [hm, hpos]
    · simp [hm]

/-- A task step in the loop with a state other than Stopped runs one pass. -/
theorem step_task_running (cb : CallbackEffect) (os : PassInput) (s : System)
    (hloop : s.task = TaskPc.looping) (hrun : s.el.state ≠ UA_EVENTLOOPSTATE_STOPPED) :
    System.step cb s (Action.task os) =
      { s with
        el := (Task_pass cb os s.lastWatchdogRefresh s.el).el
        task := TaskPc.looping
        lastWatchdogRefresh := (Task_pass cb os s.lastWatchdogRefresh s.el).lastWatchdogRefresh
        passes := s.passes + 1 } := by
  simp [System.step, UA_EventLoopSTM32_Task, hloop, hrun]

/-- A task step in the loop with the state Stopped leaves the loop and gives the stop
semaphore, without running a pass. -/
theorem step_task_stopped (cb : CallbackEffect) (os : PassInput) (s : System)
    (hloop : s.task = TaskPc.looping) (hstop : s.el.state = UA_EVENTLOOPSTATE_STOPPED) :
    System.step cb s (Action.task os) =
      { s with el := { s.el with stopSemaphore := true }, task := TaskPc.finished } := by
  simp [System.step, UA_EventLoopSTM32_Task, hloop, hstop, xSemaphoreGive]

/-- A task step of a finished task does nothing. -/
theorem step_task_finished (cb : CallbackEffect) (os : PassInput) (s : System)
    (hfin : s.task = TaskPc.finished) :
    System.step cb s (Action.task os) = s := by
  cases s
  simp_all [System.step, UA_EventLoopSTM32_Task]

/-- A step of the caller at the entry of `stop()`: the test of the state. -/
theorem step_stop_entry (cb : CallbackEffect) (s : System) (hp : s.stop = StopPc.entry) :
    System.step cb s Action.stop =
      { s with
        stop :=
          if s.el.state ≠ UA_EVENTLOOPSTATE_STARTED then StopPc.returned
          else StopPc.xQueueSend } := by
  by_cases h : s.el.state = UA_EVENTLOOPSTATE_STARTED <;>
    simp [System.step, UA_EventLoopSTM32_stop, hp, h]

/-- A step of the caller suspended in `xQueueSend`: with a free slot the Stop event is
queued at the tail, with a full queue the caller stays suspended. -/
theorem step_stop_send (cb : CallbackEffect) (s : System) (hp : s.stop = StopPc.xQueueSend) :
    System.step cb s Action.stop =
      if s.el.eventQueue.length < STM32_EVENTLOOP_QUEUE_SIZE then
        { s with
          el := { s.el with eventQueue := s.el.eventQueue ++ [stopEvent] }
          stop := StopPc.xSemaphoreTake
          stopSent := s.stopSent + 1 }
      else s := by
  by_cases h : s.el.eventQueue.length < STM32_EVENTLOOP_QUEUE_SIZE <;>
    simp [System.step, UA_EventLoopSTM32_stop, xQueueSend, hp, h]

/-- A step of the caller suspended in `xSemaphoreTake`: a given semaphore is taken, the
state is set to Stopped and `stop()` returns; otherwise the caller stays suspended. -/
theorem step_stop_take (cb : CallbackEffect) (s : System) (hp : s.stop = StopPc.xSemaphoreTake) :
    System.step cb s Action.stop =
      if s.el.stopSemaphore = true then
        { s with
          el := { s.el with stopSemaphore := false, state := UA_EVENTLOOPSTATE_STOPPED }
          stop := StopPc.returned
          stopTaken := s.stopTaken + 1 }
      else s := by
  by_cases h : s.el.stopSemaphore = true <;>
    simp [System.step, UA_EventLoopSTM32_stop, xSemaphoreTake, hp, h]

/-- A step of a caller whose `stop()` has returned does nothing. -/
theorem step_stop_returned (cb : CallbackEffect) (s : System) (hp : s.stop = StopPc.returned) :
    System.step cb s Action.stop = s := by
  simp [System.step, UA_EventLoopSTM32_stop, hp]

/-- The network interrupt changes at most the event queue. -/
theorem step_network (cb : CallbackEffect) (s : System) (connected : Bool) :
    System.step cb s (Action.networkStatus connected) =
      if s.g_eventLoop = true then
        { s with
          el :=
            { s.el with
              eventQueue :=
                (xQueueSendFromISR s.el.eventQueue
                  { type := STM32_EVENT_NETWORK_STATUS, data := none,
                    param := if connected then 1 else 0 }).2 } }
      else s := by
  by_cases h : s.g_eventLoop = true <;>
    simp [System.step, STM32_NetworkStatusCallback, h]

/-- Once the state is Stopped, no scheduling decision runs a pass or changes the
state. -/
theorem step_stopped (cb : CallbackEffect) (s : System) (a : Action)
    (hstop : s.el.state = UA_EVENTLOOPSTATE_STOPPED) :
    (System.step cb s a).el.state = UA_EVENTLOOPSTATE_STOPPED ∧
      (System.step cb s a).passes = s.passes := by
  cases a with
  | task os =>
    cases ht : s.task with
    | looping => rw [step_task_stopped cb os s ht hstop]; exact ⟨hstop, rfl⟩
    | finished => rw [step_task_finished cb os s ht]; exact ⟨hstop, rfl⟩
  | stop =>
    cases hp : s.stop with
    | entry => rw [step_stop_entry cb s hp]; exact ⟨hstop, rfl⟩
    | xQueueSend => rw [step_stop_send cb s hp]; split <;> exact ⟨hstop, rfl⟩
    | xSemaphoreTake =>
      rw [step_stop_take cb s hp]
      split
      · exact ⟨rfl, rfl⟩
      · exact ⟨hstop, rfl⟩
    | returned => rw [step_stop_returned cb s hp]; exact ⟨hstop, rfl⟩
  | networkStatus connected =>
    rw [step_network]
    split <;> exact ⟨hstop, rfl⟩

/-- Once the state is Stopped, no schedule runs a pass. -/
theorem exec_stopped (cb : CallbackEffect) (schedule : List Action) :
    ∀ s : System, s.el.state = UA_EVENTLOOPSTATE_STOPPED →
      (System.exec cb s schedule).passes = s.passes := by
  induction schedule with
  | nil => intro s _; rfl
  | cons a rest ih =>
    intro s hstop
    have h := step_stopped cb s a hstop
    show (System.exec cb (System.step cb s a) rest).passes = s.passes
    rw [ih _ h.1, h.2]

/-- Once the state is Stopped, no scheduling decision calls a callback, refreshes the
watchdog or receives from the queue: the registry and the task's
`lastWatchdogRefresh` stay as they are, and the queue keeps what it holds (a Stop or
NetworkStatusChanged event may be added at its tail). -/
theorem step_stopped_frame (cb : CallbackEffect) (s : System) (a : Action)
    (hstop : s.el.state = UA_EVENTLOOPSTATE_STOPPED) :
    (System.step cb s a).el.fds = s.el.fds ∧
      (System.step cb s a).lastWatchdogRefresh = s.lastWatchdogRefresh ∧
      s.el.eventQueue <+: (System.step cb s a).el.eventQueue := by
  cases a with
  | task os =>
    cases ht : s.task with
    | looping =>
      rw [step_task_stopped cb os s ht hstop]
      exact ⟨rfl, rfl, List.prefix_refl _⟩
    | finished =>
      rw [step_task_finished cb os s ht]
      exact ⟨rfl, rfl, List.prefix_refl _⟩
  | stop =>
    cases hp : s.stop with
    | entry => rw [step_stop_entry cb s hp]; exact ⟨rfl, rfl, List.prefix_refl _⟩
    | xQueueSend =>
      rw [step_stop_send cb s hp]
      split
      · exact ⟨rfl, rfl, List.prefix_append _ _⟩
      · exact ⟨rfl, rfl, List.prefix_refl _⟩
    | xSemaphoreTake =>
      rw [step_stop_take cb s hp]
      split <;> exact ⟨rfl, rfl, List.prefix_refl _⟩
    | returned => rw [step_stop_returned cb s hp]; exact ⟨rfl, rfl, List.prefix_refl _⟩
  | networkStatus connected =>
    rw [step_network]
    split
    · refine ⟨rfl, rfl, ?_⟩
      show s.el.eventQueue <+: (xQueueSendFromISR s.el.eventQueue _).2
      unfold xQueueSendFromISR
      split
      · exact List.prefix_append _ _
      · exact List.prefix_refl _
    · exact ⟨rfl, rfl, List.prefix_refl _⟩

/-- Once the state is Stopped, no schedule calls a callback, refreshes the watchdog or
receives from the queue, and the state stays Stopped. -/
theorem exec_stopped_frame (cb : CallbackEffect) (schedule : List Action) :
    ∀ s : System, s.el.state = UA_EVENTLOOPSTATE_STOPPED →
      (System.exec cb s schedule).el.state = UA_EVENTLOOPSTATE_STOPPED ∧
        (System.exec cb s schedule).el.fds = s.el.fds ∧
        (System.exec cb s schedule).lastWatchdogRefresh = s.lastWatchdogRefresh ∧
        s.el.eventQueue <+: (System.exec cb s schedule).el.eventQueue := by
  induction schedule with
  | nil => intro s hstop; exact ⟨hstop, rfl, rfl, List.prefix_refl _⟩
  | cons a rest ih =>
    intro s hstop
    have h := step_stopped cb s a hstop
    have hf := step_stopped_frame cb s a hstop
    have hrest := ih (System.step cb s a) h.1
    show (System.exec cb (System.step cb s a) rest).el.state = UA_EVENTLOOPSTATE_STOPPED ∧
      (System.exec cb (System.step cb s a) rest).el.fds = s.el.fds ∧
      (System.exec cb (System.step cb s a) rest).lastWatchdogRefresh = s.lastWatchdogRefresh ∧
      s.el.eventQueue <+: (System.exec cb (System.step cb s a) rest).el.eventQueue
    refine ⟨hrest.1, ?_, ?_, ?_⟩
    · rw [hrest.2.1, hf.1]
    · rw [hrest.2.2.1, hf.2.1]
    · exact hf.2.2.trans hrest.2.2.2

/-- C6: a pass of the running loop takes at most one event off the queue, the oldest,
by the non-blocking receive that follows the sweep. If that event is Stop, the state
becomes Stopped and no further pass is executed: the next loop test of
`UA_EventLoopSTM32_Task`, whatever the environment answers, leaves the loop and gives
the stop semaphore without running the loop body, and under every schedule that
follows the state stays Stopped, no callback is called (the registry stays as it is
for every effect `cb` of a call), the watchdog is not refreshed, nothing is received
from the queue again, and the count of passes stays. If the event is of any other type
(NetworkStatusChanged with either parameter, Timer, Socket), the state is unchanged,
the registry is the one the sweep left (the one the same pass leaves with an empty
queue; the registry of before when no callback ran), and the loop continues: the next
loop test of `UA_EventLoopSTM32_Task` runs the loop body again. -/
theorem pass_drains_one_event (cb : CallbackEffect) (os : PassInput) (s : System)
    (hloop : s.task = TaskPc.looping) (hrun : s.el.state ≠ UA_EVENTLOOPSTATE_STOPPED) :
    (System.step cb s (Action.task os)).el = (Task_pass cb os s.lastWatchdogRefresh s.el).el ∧
      (System.step cb s (Action.task os)).passes = s.passes + 1 ∧
      (Task_pass cb os s.lastWatchdogRefresh s.el).received = s.el.eventQueue.head? ∧
      (System.step cb s (Action.task os)).el.eventQueue = s.el.eventQueue.tail ∧
      (∀ event, s.el.eventQueue.head? = some event → event.type = STM32_EVENT_STOP →
        (System.step cb s (Action.task os)).el.state = UA_EVENTLOOPSTATE_STOPPED ∧
          (∀ (os2 : PassInput) (last2 : Nat),
            UA_EventLoopSTM32_Task cb os2
                (TaskPc.looping, last2, (System.step cb s (Action.task os)).el) =
              (TaskPc.finished, last2,
                { (System.step cb s (Action.task os)).el with stopSemaphore := true })) ∧
          ∀ schedule : List Action,
            (System.exec cb (System.step cb s (Action.task os)) schedule).passes
                = s.passes + 1 ∧
              (System.exec cb (System.step cb s (Action.task os)) schedule).el.state
                = UA_EVENTLOOPSTATE_STOPPED ∧
              (System.exec cb (System.step cb s (Action.task os)) schedule).el.fds
                = (System.step cb s (Action.task os)).el.fds ∧
              (System.exec cb (System.step cb s (Action.task os)) schedule).lastWatchdogRefresh
                = (System.step cb s (Action.task os)).lastWatchdogRefresh ∧
              (System.step cb s (Action.task os)).el.eventQueue <+:
                (System.exec cb (System.step cb s (Action.task os)) schedule).el.eventQueue) ∧
      (∀ event, s.el.eventQueue.head? = some event → event.type ≠ STM32_EVENT_STOP →
        (System.step cb s (Action.task os)).el.state = s.el.state ∧
          (System.step cb s (Action.task os)).el.fds =
            (Task_pass cb os s.lastWatchdogRefresh { s.el with eventQueue := [] }).el.fds ∧
          ((Task_pass cb os s.lastWatchdogRefresh s.el).callbacks = [] →
            (System.step cb s (Action.task os)).el.fds = s.el.fds) ∧
          (System.step cb s (Action.task os)).task = TaskPc.looping ∧
          ∀ os2 : PassInput,
            UA_EventLoopSTM32_Task cb os2
                ((System.step cb s (Action.task os)).task,
                  (System.step cb s (Action.task os)).lastWatchdogRefresh,
                  (System.step cb s (Action.task os)).el) =
              (TaskPc.looping,
                (Task_pass cb os2 (System.step cb s (Action.task os)).lastWatchdogRefresh
                  (System.step cb s (Action.task os)).el).lastWatchdogRefresh,
                (Task_pass cb os2 (System.step cb s (Action.task os)).lastWatchdogRefresh
                  (System.step cb s (Action.task os)).el).el) ∧
              (System.step cb (System.step cb s (Action.task os)) (Action.task os2)).passes
                = s.passes + 2) := by
  have hstep := step_task_running cb os s hloop hrun
  have hel := pass_el cb os s.lastWatchdogRefresh s.el
  have h1 : (System.step cb s (Action.task os)).el
      = (Task_pass cb os s.lastWatchdogRefresh s.el).el := by rw [hstep]
  have h2 : (System.step cb s (Action.task os)).passes = s.passes + 1 := by rw [hstep]
  have h3 : (System.step cb s (Action.task os)).task = TaskPc.looping := by rw [hstep]
  refine ⟨h1, h2, hel.1, by rw [h1]; exact hel.2.1, ?_, ?_⟩
  · intro event hhead htype
    have hst : (System.step cb s (Action.task os)).el.state = UA_EVENTLOOPSTATE_STOPPED := by
      rw [h1, hel.2.2.1]
      simp [hhead, htype]
    refine ⟨hst, fun os2 last2 => ?_, fun schedule => ?_⟩
    · simp [UA_EventLoopSTM32_Task, hst, xSemaphoreGive]
    · have hf := exec_stopped_frame cb schedule _ hst
      refine ⟨?_, hf.1, hf.2.1, hf.2.2.1, hf.2.2.2⟩
      rw [exec_stopped cb schedule _ hst, h2]
  · intro event hhead htype
    have hst : (System.step cb s (Action.task os)).el.state = s.el.state := by
      rw [h1, hel.2.2.1]
      simp [hhead, htype]
    refine ⟨hst, by rw [h1]; exact hel.2.2.2.2.1, ?_, h3, fun os2 => ⟨?_, ?_⟩⟩
    · intro hc
      rw [h1]
      exact hel.2.2.2.2.2 hc
    · have hrun2 : (System.step cb s (Action.task os)).el.state ≠ UA_EVENTLOOPSTATE_STOPPED := by
        rw [hst]; exact hrun
      rw [h3]
      simp [UA_EventLoopSTM32_Task, hrun2]
    · rw [step_task_running cb os2 _ h3 (by rw [hst]; exact hrun)]
      show (System.step cb s (Action.task os)).passes + 1 = s.passes + 2
      rw [h2]

/-- Witness for `pass_drains_one_event`: a started reactor with a Stop event at the
head of its queue, callbacks that register a descriptor on the next handle, and handle
7 readable in every pass. The pass that receives Stop calls the callback of handle 7
and leaves handles 5, 7 and 8 registered; two further loop tests with handle 7
readable leave the registry and the queue as they are. -/
theorem pass_drains_one_event_witness :
    (System.exec registeringEffect
        (System.step registeringEffect (exampleSystem stopQueuedEL) (Action.task readyPass))
        [Action.task readyPass, Action.task readyPass]).el.fds =
        [exampleListener, exampleRFD, acceptedRFD exampleRFD 8] ∧
      [networkUpEvent] <+:
        (System.exec registeringEffect
          (System.step registeringEffect (exampleSystem stopQueuedEL) (Action.task readyPass))
          [Action.task readyPass, Action.task readyPass]).el.eventQueue :=
  ⟨(((pass_drains_one_event registeringEffect readyPass (exampleSystem stopQueuedEL)
      rfl (by decide)).2.2.2.2.1 stopEvent rfl rfl).2.2
        [Action.task readyPass, Action.task readyPass]).2.2.1.trans (by decide),
    (((pass_drains_one_event registeringEffect readyPass (exampleSystem stopQueuedEL)
      rfl (by decide)).2.2.2.2.1 stopEvent rfl rfl).2.2
        [Action.task readyPass, Action.task readyPass]).2.2.2.2⟩

/-- Inserting a descriptor adds exactly that descriptor to the registry. -/
theorem FDTree_insert_perm (rfd : UA_RegisteredFD) (fds : List UA_RegisteredFD) :
    (FDTree_insert rfd fds).Perm (rfd :: fds) := by
  induction fds with
  | nil => exact List.Perm.refl _
  | cons r rest ih =>
    by_cases h : rfd.fd < r.fd
    · simp [FDTree_insert, h]
    · simp only [FDTree_insert, h, if_false]
      exact (List.Perm.cons r ih).trans (List.Perm.swap rfd r rest)

/-- The calls of `setNonBlocking` are calls of `fcntl` on the handle. -/
theorem setNonBlocking_calls (sockfd : Int) (os : RegisterOS) :
    ∀ c ∈ (setNonBlocking sockfd os).2,
      c = OSCall.fcntl_GETFL sockfd ∨ ∃ flags, c = OSCall.fcntl_SETFL sockfd flags := by
  intro c hc
  unfold setNonBlocking at hc
  by_cases h1 : os.getfl = -1
  · simp [h1] at hc
    exact Or.inl hc
  · by_cases h2 : os.setfl = -1 <;> simp [h1, h2] at hc <;>
      rcases hc with hc | hc
    · exact Or.inl hc
    · exact Or.inr ⟨_, hc⟩
    · exact Or.inl hc
    · exact Or.inr ⟨_, hc⟩

/-- A registration: its status is that of `setNonBlocking` when that fails, else that
of the registry; it adds the descriptor exactly when it returns Good and leaves the
registry unchanged otherwise; its calls are calls of `fcntl` on the handle. -/
theorem registerFD_spec (fds : List UA_RegisteredFD) (rfd : UA_RegisteredFD) (os : RegisterOS) :
    ((UA_EventLoopSTM32_registerFD fds rfd os).status = UA_STATUSCODE_GOOD →
        (UA_EventLoopSTM32_registerFD fds rfd os).fds = FDTree_insert rfd fds) ∧
      ((UA_EventLoopSTM32_registerFD fds rfd os).status ≠ UA_STATUSCODE_GOOD →
        (UA_EventLoopSTM32_registerFD fds rfd os).fds = fds) ∧
      ((os.getfl = -1 ∨ os.setfl = -1) →
        (UA_EventLoopSTM32_registerFD fds rfd os).status = UA_STATUSCODE_BADINTERNALERROR) ∧
      (os.getfl ≠ -1 → os.setfl ≠ -1 →
        (UA_EventLoopSTM32_registerFD fds rfd os).status =
          (UA_EventLoopPOSIX_registerFD fds rfd os.storage).1) ∧
      (∀ c ∈ (UA_EventLoopSTM32_registerFD fds rfd os).calls,
        c = OSCall.fcntl_GETFL rfd.fd ∨ ∃ flags, c = OSCall.fcntl_SETFL rfd.fd flags) := by
  have hcalls : (UA_EventLoopSTM32_registerFD fds rfd os).calls = (setNonBlocking rfd.fd os).2 := by
    unfold UA_EventLoopSTM32_registerFD
    by_cases h : (setNonBlocking rfd.fd os).1 = UA_STATUSCODE_GOOD <;> simp [h, setNoSigPipe]
  refine ⟨?_, ?_, ?_, ?_, ?_⟩
  · unfold UA_EventLoopSTM32_registerFD UA_EventLoopPOSIX_registerFD setNonBlocking setNoSigPipe
    by_cases h1 : os.getfl = -1 <;> by_cases h2 : os.setfl = -1 <;>
      by_cases h3 : (fds.any fun r => decide (r.fd = rfd.fd)) = true <;>
      cases h4 : os.storage <;> simp [h1, h2, h3, h4]
  · unfold UA_EventLoopSTM32_registerFD UA_EventLoopPOSIX_registerFD setNonBlocking setNoSigPipe
    by_cases h1 : os.getfl = -1 <;> by_cases h2 : os.setfl = -1 <;>
      by_cases h3 : (fds.any fun r => decide (r.fd = rfd.fd)) = true <;>
      cases h4 : os.storage <;> simp [h1, h2, h3, h4]
  · unfold UA_EventLoopSTM32_registerFD setNonBlocking setNoSigPipe
    by_cases h1 : os.getfl = -1 <;> by_cases h2 : os.setfl = -1 <;> simp [h1, h2]
  · intro h1 h2
    unfold UA_EventLoopSTM32_registerFD setNonBlocking setNoSigPipe
    simp [h1, h2]
  · rw [hcalls]
    exact setNonBlocking_calls rfd.fd os

/-- A registration makes no call of `accept`. -/
theorem registerFD_no_accept (fds : List UA_RegisteredFD) (rfd : UA_RegisteredFD)
    (os : RegisterOS) :
    (UA_EventLoopSTM32_registerFD fds rfd os).calls.countP OSCall.isAccept = 0 := by
  rw [List.countP_eq_zero]
  intro c hc
  rcases (registerFD_spec fds rfd os).2.2.2.2 c hc with h | ⟨flags, h⟩ <;>
    simp [h, OSCall.isAccept]

/-- The listen-socket callback in terms of its cases: the event without the readable
bit, a failed `accept`, a failed allocation, a failed and a successful registration. -/
theorem listenCallback_cases (fds : List UA_RegisteredFD) (rfd : UA_RegisteredFD)
    (event : Nat) (os : AcceptOS) :
    (event &&& UA_FDEVENT_IN = 0 →
        TCP_listenSocketCallback fds rfd event os =
          { status := UA_STATUSCODE_GOOD, fds := fds, calls := [] }) ∧
      (event &&& UA_FDEVENT_IN ≠ 0 → os.accept = -1 →
        TCP_listenSocketCallback fds rfd event os =
          { status := UA_STATUSCODE_GOOD, fds := fds, calls := [OSCall.accept rfd.fd] }) ∧
      (event &&& UA_FDEVENT_IN ≠ 0 → os.accept ≠ -1 → os.calloc = false →
        TCP_listenSocketCallback fds rfd event os =
          { status := UA_STATUSCODE_BADOUTOFMEMORY, fds := fds,
            calls := [OSCall.accept rfd.fd, OSCall.close os.accept] }) ∧
      (event &&& UA_FDEVENT_IN ≠ 0 → os.accept ≠ -1 → os.calloc = true →
        (UA_EventLoopSTM32_registerFD fds (acceptedRFD rfd os.accept) os.register).status
          ≠ UA_STATUSCODE_GOOD →
        TCP_listenSocketCallback fds rfd event os =
          { status :=
              (UA_EventLoopSTM32_registerFD fds (acceptedRFD rfd os.accept) os.register).status,
            fds := fds,
            calls := OSCall.accept rfd.fd ::
              ((UA_EventLoopSTM32_registerFD fds (acceptedRFD rfd os.accept) os.register).calls
                ++ [OSCall.close os.accept]) }) ∧
      (event &&& UA_FDEVENT_IN ≠ 0 → os.accept ≠ -1 → os.calloc = true →
        (UA_EventLoopSTM32_registerFD fds (acceptedRFD rfd os.accept) os.register).status
          = UA_STATUSCODE_GOOD →
        TCP_listenSocketCallback fds rfd event os =
          { status := UA_STATUSCODE_GOOD,
            fds := FDTree_insert (acceptedRFD rfd os.accept) fds,
            calls := OSCall.accept rfd.fd ::
              (UA_EventLoopSTM32_registerFD fds (acceptedRFD rfd os.accept) os.register).calls }) := by
  have hspec := registerFD_spec fds (acceptedRFD rfd os.accept) os.register
  refine ⟨?_, ?_, ?_, ?_, ?_⟩
  · intro h
    simp [TCP_listenSocketCallback, h]
  · intro h ha
    simp [TCP_listenSocketCallback, h, ha]
  · intro h ha hc
    simp [TCP_listenSocketCallback, h, ha, hc]
  · intro h ha hc hr
    have hfds := hspec.2.1 hr
    simp only [TCP_listenSocketCallback, TCP_registerConnectedSocket, acceptedRFD] at *
    simp [h, ha, hc, hr, hfds]
  · intro h ha hc hr
    have hfds := hspec.1 hr
    simp only [TCP_listenSocketCallback, TCP_registerConnectedSocket, acceptedRFD] at *
    simp [h, ha, hc, hr, hfds]

/-- C12: an invocation of the listen-socket callback with the readable bit set calls
`accept` exactly once, on the listening handle. When `accept`, the allocation and the
registration all succeed, the registry gains exactly one descriptor, whose handle is
the accepted socket, whose interest is readable only, whose callback is the
connected-socket callback and whose application tuple is the listener's, and the
callback returns Good. When `accept` fails it returns Good and leaves the registry
unchanged; without the readable bit it makes no call, leaves the registry unchanged
and returns Good. -/
theorem listenCallback_accepts (fds : List UA_RegisteredFD) (rfd : UA_RegisteredFD)
    (event : Nat) (os : AcceptOS) :
    (event &&& UA_FDEVENT_IN ≠ 0 →
        (TCP_listenSocketCallback fds rfd event os).calls.countP OSCall.isAccept = 1 ∧
          (TCP_listenSocketCallback fds rfd event os).calls.head? = some (OSCall.accept rfd.fd)) ∧
      (event &&& UA_FDEVENT_IN ≠ 0 → os.accept ≠ -1 → os.calloc = true →
        (TCP_registerConnectedSocket fds (acceptedRFD rfd os.accept) os.register).status
          = UA_STATUSCODE_GOOD →
        (TCP_listenSocketCallback fds rfd event os).status = UA_STATUSCODE_GOOD ∧
          (TCP_listenSocketCallback fds rfd event os).fds
            = FDTree_insert (acceptedRFD rfd os.accept) fds ∧
          (TCP_listenSocketCallback fds rfd event os).fds.Perm
            (acceptedRFD rfd os.accept :: fds) ∧
          (acceptedRFD rfd os.accept).fd = os.accept ∧
          (acceptedRFD rfd os.accept).listenEvents = UA_FDEVENT_IN ∧
          (acceptedRFD rfd os.accept).callback = UA_FDCallback.connectionSocket ∧
          (acceptedRFD rfd os.accept).application = rfd.application) ∧
      (event &&& UA_FDEVENT_IN ≠ 0 → os.accept = -1 →
        (TCP_listenSocketCallback fds rfd event os).status = UA_STATUSCODE_GOOD ∧
          (TCP_listenSocketCallback fds rfd event os).fds = fds) ∧
      (event &&& UA_FDEVENT_IN = 0 →
        TCP_listenSocketCallback fds rfd event os =
          { status := UA_STATUSCODE_GOOD, fds := fds, calls := [] }) := by
  obtain ⟨c0, c1, c2, c3, c4⟩ := listenCallback_cases fds rfd event os
  have hna := registerFD_no_accept fds (acceptedRFD rfd os.accept) os.register
  refine ⟨?_, ?_, ?_, c0⟩
  · intro h
    by_cases ha : os.accept = -1
    · rw [c1 h ha]
      simp [OSCall.isAccept]
    · cases hc : os.calloc with
      | false =>
        rw [c2 h ha hc]
        simp [OSCall.isAccept]
      | true =>
        by_cases hr : (UA_EventLoopSTM32_registerFD fds (acceptedRFD rfd os.accept)
            os.register).status = UA_STATUSCODE_GOOD
        · rw [c4 h ha hc hr]
          simp [OSCall.isAccept, hna]
        · rw [c3 h ha hc hr]
          simp [OSCall.isAccept, hna]
  · intro h ha hc hr
    rw [c4 h ha hc hr]
    exact ⟨rfl, rfl, FDTree_insert_perm _ _, rfl, rfl, rfl, rfl⟩
  · intro h ha
    rw [c1 h ha]
    exact ⟨rfl, rfl⟩

/-- Witness for `listenCallback_accepts`: the example listener accepts socket 8 into
a registry that holds the listener. -/
theorem listenCallback_accepts_witness :
    (TCP_listenSocketCallback [exampleListener] exampleListener UA_FDEVENT_IN
        exampleAcceptOS).status = UA_STATUSCODE_GOOD ∧
      (TCP_listenSocketCallback [exampleListener] exampleListener UA_FDEVENT_IN
        exampleAcceptOS).fds = FDTree_insert (acceptedRFD exampleListener 8) [exampleListener] :=
  have h := (listenCallback_accepts [exampleListener] exampleListener UA_FDEVENT_IN
    exampleAcceptOS).2.1 (by decide) (by decide) rfl (by decide)
  ⟨h.1, h.2.1⟩

/-- The last call of a sequence that ends with a given call. -/
theorem getLast?_cons_append_singleton (a x : OSCall) (l : List OSCall) :
    (a :: (l ++ [x])).getLast? = some x := by
  have h : a :: (l ++ [x]) = (a :: l) ++ [x] := rfl
  rw [h, List.getLast?_append]
  rfl

/-- C13 (counterexample): the registration of accepted socket 8 fails because
`fcntl(F_GETFL)` fails; the listen-socket callback returns BadInternalError, not
BadOutOfMemory. -/
theorem listenCallback_register_failure_counterexample :
    (TCP_registerConnectedSocket [exampleListener] (acceptedRFD exampleListener 8)
        { getfl := -1, setfl := 0, storage := true }).status ≠ UA_STATUSCODE_GOOD ∧
      (TCP_listenSocketCallback [exampleListener] exampleListener UA_FDEVENT_IN
        { accept := 8, calloc := true,
          register := { getfl := -1, setfl := 0, storage := true } }).status
        = UA_STATUSCODE_BADINTERNALERROR ∧
      (TCP_listenSocketCallback [exampleListener] exampleListener UA_FDEVENT_IN
        { accept := 8, calloc := true,
          register := { getfl := -1, setfl := 0, storage := true } }).status
        ≠ UA_STATUSCODE_BADOUTOFMEMORY := by
  decide

/-- C13 (amended): whenever the registration of a just-accepted socket fails, the
listen-socket callback closes that socket as its last call, leaves the registry
unchanged, and returns the status of the failed registration: BadInternalError when
the socket cannot be set non-blocking, and otherwise the status of the registry,
which is BadOutOfMemory when storage cannot be allocated and the AlreadyRegistered
status when the handle is already registered. -/
theorem listenCallback_register_failure (fds : List UA_RegisteredFD) (rfd : UA_RegisteredFD)
    (event : Nat) (os : AcceptOS) (hin : event &&& UA_FDEVENT_IN ≠ 0)
    (haccept : os.accept ≠ -1) (hcalloc : os.calloc = true)
    (hfail : (TCP_registerConnectedSocket fds (acceptedRFD rfd os.accept) os.register).status
      ≠ UA_STATUSCODE_GOOD) :
    (TCP_listenSocketCallback fds rfd event os).status =
        (TCP_registerConnectedSocket fds (acceptedRFD rfd os.accept) os.register).status ∧
      (TCP_listenSocketCallback fds rfd event os).fds = fds ∧
      (TCP_listenSocketCallback fds rfd event os).calls.getLast?
        = some (OSCall.close os.accept) ∧
      ((os.register.getfl = -1 ∨ os.register.setfl = -1) →
        (TCP_listenSocketCallback fds rfd event os).status = UA_STATUSCODE_BADINTERNALERROR) ∧
      (os.register.getfl ≠ -1 → os.register.setfl ≠ -1 →
        ((fds.any (fun r => decide (r.fd = os.accept)) = true →
            (TCP_listenSocketCallback fds rfd event os).status
              = UA_STATUSCODE_BADALREADYEXISTS) ∧
          (fds.any (fun r => decide (r.fd = os.accept)) = false →
            (TCP_listenSocketCallback fds rfd event os).status
              = UA_STATUSCODE_BADOUTOFMEMORY))) := by
  have hspec := registerFD_spec fds (acceptedRFD rfd os.accept) os.register
  have hc := (listenCallback_cases fds rfd event os).2.2.2.1 hin haccept hcalloc hfail
  have hst : (TCP_listenSocketCallback fds rfd event os).status =
      (UA_EventLoopSTM32_registerFD fds (acceptedRFD rfd os.accept) os.register).status := by
    rw [hc]
  refine ⟨hst, by rw [hc], ?_, ?_, ?_⟩
  · rw [hc]
    exact getLast?_cons_append_singleton _ _ _
  · intro h
    rw [hst]
    exact hspec.2.2.1 h
  · intro h1 h2
    have hp := hspec.2.2.2.1 h1 h2
    have hfail2 : (UA_EventLoopPOSIX_registerFD fds (acceptedRFD rfd os.accept)
        os.register.storage).1 ≠ UA_STATUSCODE_GOOD := by
      rw [← hp]
      exact hfail
    rw [hst, hp]
    unfold UA_EventLoopPOSIX_registerFD at hfail2 ⊢
    constructor
    · intro hany
      have hany2 : (fds.any fun r => decide (r.fd = (acceptedRFD rfd os.accept).fd)) = true := hany
      simp [hany2]
    · intro hany
      have hany2 : (fds.any fun r => decide (r.fd = (acceptedRFD rfd os.accept).fd)) = false := hany
      cases hs : os.register.storage
      · simp [hany2]
      · simp [hany2, hs] at hfail2

/-- Witness for `listenCallback_register_failure`: the registration of accepted socket
8 fails in `fcntl`; the socket is closed and the registry is unchanged. -/
theorem listenCallback_register_failure_witness :
    (TCP_listenSocketCallback [exampleListener] exampleListener UA_FDEVENT_IN
        { accept := 8, calloc := true,
          register := { getfl := -1, setfl := 0, storage := true } }).fds = [exampleListener] ∧
      (TCP_listenSocketCallback [exampleListener] exampleListener UA_FDEVENT_IN
        { accept := 8, calloc := true,
          register := { getfl := -1, setfl := 0, storage := true } }).calls.getLast?
        = some (OSCall.close 8) :=
  have h := listenCallback_register_failure [exampleListener] exampleListener UA_FDEVENT_IN
    { accept := 8, calloc := true, register := { getfl := -1, setfl := 0, storage := true } }
    (by decide) (by decide) rfl (by decide)
  ⟨h.2.1, h.2.2.1⟩

/-- The function `TCP_openListenConnection` in terms of its cases, for a request with
a port: failure of `socket`, of `bind`, of `listen`, of the allocation, of the
registration, and success. The result of `setsockopt` plays no part. -/
theorem openListen_cases (fds : List UA_RegisteredFD) (params : UA_KeyValueMap)
    (application context : Nat) (os : OpenOS) (port : Nat)
    (hport : UA_KeyValueMap_getScalar_UInt16 params "port" = some port) :
    (os.socket = -1 →
        TCP_openListenConnection fds params application context os =
          { status := UA_STATUSCODE_BADINTERNALERROR, fds := fds, calls := [OSCall.socket] }) ∧
      (os.socket ≠ -1 → os.bind = -1 →
        TCP_openListenConnection fds params application context os =
          { status := UA_STATUSCODE_BADINTERNALERROR, fds := fds,
            calls := [OSCall.socket, OSCall.setsockopt os.socket, OSCall.bind os.socket port,
              OSCall.close os.socket] }) ∧
      (os.socket ≠ -1 → os.bind ≠ -1 → os.listen = -1 →
        TCP_openListenConnection fds params application context os =
          { status := UA_STATUSCODE_BADINTERNALERROR, fds := fds,
            calls := [OSCall.socket, OSCall.setsockopt os.socket, OSCall.bind os.socket port,
              OSCall.listen os.socket 5, OSCall.close os.socket] }) ∧
      (os.socket ≠ -1 → os.bind ≠ -1 → os.listen ≠ -1 → os.calloc = false →
        TCP_openListenConnection fds params application context os =
          { status := UA_STATUSCODE_BADOUTOFMEMORY, fds := fds,
            calls := [OSCall.socket, OSCall.setsockopt os.socket, OSCall.bind os.socket port,
              OSCall.listen os.socket 5, OSCall.close os.socket] }) ∧
      (os.socket ≠ -1 → os.bind ≠ -1 → os.listen ≠ -1 → os.calloc = true →
        (UA_EventLoopSTM32_registerFD fds (listenRFD os.socket application context)
          os.register).status ≠ UA_STATUSCODE_GOOD →
        TCP_openListenConnection fds params application context os =
          { status := (UA_EventLoopSTM32_registerFD fds
              (listenRFD os.socket application context) os.register).status,
            fds := fds,
            calls := [OSCall.socket, OSCall.setsockopt os.socket, OSCall.bind os.socket port,
              OSCall.listen os.socket 5] ++
              (UA_EventLoopSTM32_registerFD fds (listenRFD os.socket application context)
                os.register).calls ++ [OSCall.close os.socket] }) ∧
      (os.socket ≠ -1 → os.bind ≠ -1 → os.listen ≠ -1 → os.calloc = true →
        (UA_EventLoopSTM32_registerFD fds (listenRFD os.socket application context)
          os.register).status = UA_STATUSCODE_GOOD →
        TCP_openListenConnection fds params application context os =
          { status := UA_STATUSCODE_GOOD,
            fds := FDTree_insert (listenRFD os.socket application context) fds,
            calls := [OSCall.socket, OSCall.setsockopt os.socket, OSCall.bind os.socket port,
              OSCall.listen os.socket 5] ++
              (UA_EventLoopSTM32_registerFD fds (listenRFD os.socket application context)
                os.register).calls }) := by
  have hspec := registerFD_spec fds (listenRFD os.socket application context) os.register
  refine ⟨?_, ?_, ?_, ?_, ?_, ?_⟩
  · intro h1
    simp [TCP_openListenConnection, hport, h1]
  · intro h1 h2
    simp [TCP_openListenConnection, hport, h1, h2]
  · intro h1 h2 h3
    simp [TCP_openListenConnection, hport, h1, h2, h3]
  · intro h1 h2 h3 h4
    simp [TCP_openListenConnection, hport, h1, h2, h3, h4]
  · intro h1 h2 h3 h4 h5
    have hfds := hspec.2.1 h5
    simp only [TCP_openListenConnection, TCP_registerListenSocket, listenRFD] at *
    simp [hport, h1, h2, h3, h4, h5, hfds]
  · intro h1 h2 h3 h4 h5
    have hfds := hspec.1 h5
    simp only [TCP_openListenConnection, TCP_registerListenSocket, listenRFD] at *
    simp [hport, h1, h2, h3, h4, h5, hfds]

/-- C14: `TCP_openListenConnection` called with parameters that hold no `UInt16`
scalar under "port" returns BadInvalidArgument, makes no call (it creates no socket)
and leaves the registry unchanged. -/
theorem openListen_no_port (fds : List UA_RegisteredFD) (params : UA_KeyValueMap)
    (application context : Nat) (os : OpenOS)
    (hport : UA_KeyValueMap_getScalar_UInt16 params "port" = none) :
    TCP_openListenConnection fds params application context os =
        { status := UA_STATUSCODE_BADINVALIDARGUMENT, fds := fds, calls := [] } ∧
      (TCP_openListenConnection fds params application context os).status
        = UA_STATUSCODE_BADINVALIDARGUMENT ∧
      OSCall.socket ∉ (TCP_openListenConnection fds params application context os).calls ∧
      (TCP_openListenConnection fds params application context os).fds = fds := by
  have h : TCP_openListenConnection fds params application context os =
      { status := UA_STATUSCODE_BADINVALIDARGUMENT, fds := fds, calls := [] } := by
    simp [TCP_openListenConnection, hport]
  rw [h]
  simp

/-- Witness for `openListen_no_port`: parameters whose "port" is a string. -/
theorem openListen_no_port_witness :
    (TCP_openListenConnection [] [("port", UA_Variant.string "4840")] 2 3 exampleOpenOS).status
      = UA_STATUSCODE_BADINVALIDARGUMENT :=
  (openListen_no_port [] [("port", UA_Variant.string "4840")] 2 3 exampleOpenOS
    (by decide)).2.1

/-- C15 (counterexample): `setsockopt(SO_REUSEADDR)` fails while every other step
succeeds; `TCP_openListenConnection` returns Good and registers the listener. -/
theorem openListen_setsockopt_counterexample :
    (TCP_openListenConnection [] exampleParams 2 3 { exampleOpenOS with setsockopt := -1 }).status
        = UA_STATUSCODE_GOOD ∧
      (TCP_openListenConnection [] exampleParams 2 3 { exampleOpenOS with setsockopt := -1 }).status
        ≠ UA_STATUSCODE_BADINTERNALERROR ∧
      (TCP_openListenConnection [] exampleParams 2 3 { exampleOpenOS with setsockopt := -1 }).fds
        = [listenRFD 5 2 3] := by
  decide

/-- C15 (amended): in `TCP_openListenConnection` with a port, failure of `socket`, of
`bind` or of `listen` makes the call return BadInternalError; the result of
`setsockopt(SO_REUSEADDR)` (whose failure is only logged) does not change the status,
the registry or the calls. -/
theorem openListen_os_failure (fds : List UA_RegisteredFD) (params : UA_KeyValueMap)
    (application context : Nat) (os : OpenOS) (port : Nat)
    (hport : UA_KeyValueMap_getScalar_UInt16 params "port" = some port) :
    ((os.socket = -1 ∨ os.bind = -1 ∨ os.listen = -1) →
        (TCP_openListenConnection fds params application context os).status
          = UA_STATUSCODE_BADINTERNALERROR) ∧
      (∀ result : Int,
        TCP_openListenConnection fds params application context { os with setsockopt := result }
          = TCP_openListenConnection fds params application context os) := by
  obtain ⟨c1, c2, c3, _, _, _⟩ := openListen_cases fds params application context os port hport
  constructor
  · intro h
    by_cases h1 : os.socket = -1
    · rw [c1 h1]
    · by_cases h2 : os.bind = -1
      · rw [c2 h1 h2]
      · have h3 : os.listen = -1 := by
          rcases h with h | h | h
          · exact absurd h h1
          · exact absurd h h2
          · exact h
        rw [c3 h1 h2 h3]
  · intro result
    rfl

/-- Witness for `openListen_os_failure`: `bind` fails on the example request. -/
theorem openListen_os_failure_witness :
    (TCP_openListenConnection [] exampleParams 2 3 { exampleOpenOS with bind := -1 }).status
      = UA_STATUSCODE_BADINTERNALERROR :=
  (openListen_os_failure [] exampleParams 2 3 { exampleOpenOS with bind := -1 } 4840
    (by decide)).1 (Or.inr (Or.inl rfl))

/-- C16: whenever `TCP_openListenConnection` returns a status other than Good, the
registry is unchanged, and if the call created a socket (`socket` was called and did
not return -1) the last call before returning closes that socket, which is closed
once. -/
theorem openListen_failure_cleans (fds : List UA_RegisteredFD) (params : UA_KeyValueMap)
    (application context : Nat) (os : OpenOS)
    (hfail : (TCP_openListenConnection fds params application context os).status
      ≠ UA_STATUSCODE_GOOD) :
    (TCP_openListenConnection fds params application context os).fds = fds ∧
      (OSCall.socket ∈ (TCP_openListenConnection fds params application context os).calls →
        os.socket ≠ -1 →
        (TCP_openListenConnection fds params application context os).calls.getLast?
            = some (OSCall.close os.socket) ∧
          (TCP_openListenConnection fds params application context os).calls.count
            (OSCall.close os.socket) = 1) ∧
      (OSCall.socket ∉ (TCP_openListenConnection fds params application context os).calls →
        (TCP_openListenConnection fds params application context os).calls = []) := by
  cases hport : UA_KeyValueMap_getScalar_UInt16 params "port" with
  | none =>
    have h := (openListen_no_port fds params application context os hport).1
    rw [h]
    simp
  | some port =>
    obtain ⟨c1, c2, c3, c4, c5, c6⟩ :=
      openListen_cases fds params application context os port hport
    by_cases h1 : os.socket = -1
    · rw [c1 h1]
      simp [h1]
    · by_cases h2 : os.bind = -1
      · rw [c2 h1 h2]
        simp
      · by_cases h3 : os.listen = -1
        · rw [c3 h1 h2 h3]
          simp
        · cases h4 : os.calloc with
          | false =>
            rw [c4 h1 h2 h3 h4]
            simp
          | true =>
            by_cases h5 : (UA_EventLoopSTM32_registerFD fds
                (listenRFD os.socket application context) os.register).status
                = UA_STATUSCODE_GOOD
            · rw [c6 h1 h2 h3 h4 h5] at hfail
              exact absurd rfl hfail
            · rw [c5 h1 h2 h3 h4 h5]
              have hcalls := (registerFD_spec fds (listenRFD os.socket application context)
                os.register).2.2.2.2
              have hcount : (UA_EventLoopSTM32_registerFD fds
                  (listenRFD os.socket application context) os.register).calls.count
                  (OSCall.close os.socket) = 0 := by
                rw [List.count_eq_zero]
                intro hmem
                rcases hcalls _ hmem with h | ⟨flags, h⟩ <;> cases h
              refine ⟨rfl, fun _ _ => ⟨?_, ?_⟩, ?_⟩
              · show (([OSCall.socket, OSCall.setsockopt os.socket, OSCall.bind os.socket port,
                  OSCall.listen os.socket 5] ++ (UA_EventLoopSTM32_registerFD fds
                    (listenRFD os.socket application context) os.register).calls) ++
                  [OSCall.close os.socket]).getLast? = some (OSCall.close os.socket)
                rw [List.getLast?_append]
                rfl
              · simp [List.count_append, hcount]
              · intro hnot
                simp at hnot

/-- Witness for `openListen_failure_cleans`: `listen` fails on the example request;
socket 5 is closed and nothing is registered. -/
theorem openListen_failure_cleans_witness :
    (TCP_openListenConnection [] exampleParams 2 3 { exampleOpenOS with listen := -1 }).fds = [] ∧
      (TCP_openListenConnection [] exampleParams 2 3
        { exampleOpenOS with listen := -1 }).calls.getLast? = some (OSCall.close 5) :=
  have h := openListen_failure_cleans [] exampleParams 2 3 { exampleOpenOS with listen := -1 }
    (by decide)
  ⟨h.1, (h.2.1 (by decide) (by decide)).1⟩

/-- C17: `TCP_openConnection` returns BadNotImplemented, makes no call (it creates no
socket) and leaves the registry unchanged for every address that is present and
differs from the wildcard "opc.tcp://0.0.0.0", as "opc.tcp://0.0.0.0:4840" does; when
the address is the wildcard or no address is given, its result (status, registry,
calls) is that of `TCP_openListenConnection` on the same parameters. -/
theorem openConnection_dispatch (fds : List UA_RegisteredFD) (params : UA_KeyValueMap)
    (application context : Nat) (os : OpenOS) :
    (∀ address : String,
        UA_KeyValueMap_getScalar_String params "address" = some address →
        address ≠ wildcardAddress →
        TCP_openConnection fds params application context os =
          { status := UA_STATUSCODE_BADNOTIMPLEMENTED, fds := fds, calls := [] }) ∧
      ((UA_KeyValueMap_getScalar_String params "address" = none ∨
          UA_KeyValueMap_getScalar_String params "address" = some wildcardAddress) →
        TCP_openConnection fds params application context os =
          TCP_openListenConnection fds params application context os) ∧
      "opc.tcp://0.0.0.0:4840" ≠ wildcardAddress := by
  refine ⟨?_, ?_, by decide⟩
  · intro address haddr hne
    simp [TCP_openConnection, haddr, hne]
  · intro h
    simp only [TCP_openConnection]
    rw [if_pos h]

/-- Witness for `openConnection_dispatch`: the address "opc.tcp://0.0.0.0:4840" of the
example server gives BadNotImplemented. -/
theorem openConnection_dispatch_witness :
    TCP_openConnection []
        [("address", UA_Variant.string "opc.tcp://0.0.0.0:4840"), ("port", UA_Variant.uint16 4840)]
        2 3 exampleOpenOS =
      { status := UA_STATUSCODE_BADNOTIMPLEMENTED, fds := [], calls := [] } :=
  (openConnection_dispatch []
    [("address", UA_Variant.string "opc.tcp://0.0.0.0:4840"), ("port", UA_Variant.uint16 4840)]
    2 3 exampleOpenOS).1 "opc.tcp://0.0.0.0:4840" (by decide) (by decide)

/-- The number of times `TCP_free` closes a handle: the number of registry entries
with that handle, and none for the invalid handle. -/
theorem TCP_free_count (fd : Int) (fds : List UA_RegisteredFD) :
    (TCP_free fds).count (OSCall.close fd) =
      if fd ≠ UA_INVALID_FD then (fds.map (fun rfd => rfd.fd)).count fd else 0 := by
  unfold TCP_free
  rw [List.count_append]
  have h0 : List.count (OSCall.close fd) [OSCall.UA_free_tcm] = 0 := by simp
  rw [h0, Nat.add_zero]
  induction fds with
  | nil => simp
  | cons r rest ih =>
    by_cases hr : r.fd = UA_INVALID_FD
    · by_cases hfd : fd = UA_INVALID_FD
      · simp [hr, hfd] at ih ⊢
        exact ih
      · have hne : ¬ r.fd = fd := by
          rw [hr]
          exact fun h => hfd h.symm
        simp [List.filterMap_cons, hr, hfd, List.count_cons, hne] at ih ⊢
        exact ih
    · by_cases heq : r.fd = fd
      · have hfd : ¬ fd = UA_INVALID_FD := by
          rw [← heq]
          exact hr
        simp [List.filterMap_cons, hr, hfd, List.count_cons, heq] at ih ⊢
        exact ih
      · by_cases hfd : fd = UA_INVALID_FD
        · simp [List.filterMap_cons, hr, hfd, List.count_cons, heq] at ih ⊢
          have hne : ¬ r.fd = UA_INVALID_FD := hr
          simp [hfd] at heq
          simp [heq, ih]
        · simp [List.filterMap_cons, hr, hfd, List.count_cons, heq] at ih ⊢
          exact ih

/-- C18 (counterexample): the registry holds the manager's listener and accepted
descriptor and a descriptor on handle 9 that another component registered with its
own callback; `TCP_free` closes handle 9 too. -/
theorem TCP_free_closes_foreign_counterexample :
    otherRFD.callback = UA_FDCallback.other 1 ∧
      OSCall.close otherRFD.fd ∈ TCP_free [exampleListener, exampleRFD, otherRFD] ∧
      TCP_free [exampleListener, exampleRFD, otherRFD] =
        [OSCall.close 5, OSCall.close 7, OSCall.close 9, OSCall.UA_free_tcm] := by
  decide

/-- C18 (amended): `TCP_free` closes every descriptor of the reactor's registry whose
handle is not the invalid handle, whoever registered it and whatever its callback,
and nothing else; with a registry in which no handle occurs twice each is closed
exactly once; the manager's storage is released once, by the last call, after all
the closes. -/
theorem TCP_free_closes_all (fds : List UA_RegisteredFD) :
    (∀ rfd ∈ fds, rfd.fd ≠ UA_INVALID_FD → OSCall.close rfd.fd ∈ TCP_free fds) ∧
      (∀ fd : Int, OSCall.close fd ∈ TCP_free fds →
        fd ≠ UA_INVALID_FD ∧ ∃ rfd ∈ fds, rfd.fd = fd) ∧
      ((fds.map (fun rfd => rfd.fd)).Nodup →
        ∀ rfd ∈ fds, rfd.fd ≠ UA_INVALID_FD → (TCP_free fds).count (OSCall.close rfd.fd) = 1) ∧
      (TCP_free fds).getLast? = some OSCall.UA_free_tcm ∧
      (TCP_free fds).count OSCall.UA_free_tcm = 1 ∧
      (∀ c ∈ (TCP_free fds).dropLast, ∃ fd, c = OSCall.close fd) := by
  have hmem : ∀ fd : Int, OSCall.close fd ∈ TCP_free fds ↔
      (fd ≠ UA_INVALID_FD ∧ ∃ rfd ∈ fds, rfd.fd = fd) := by
    intro fd
    unfold TCP_free
    simp only [List.mem_append, List.mem_filterMap, List.mem_singleton]
    constructor
    · rintro (⟨rfd, hr, h⟩ | h)
      · by_cases hv : rfd.fd = UA_INVALID_FD
        · simp [hv] at h
        · simp only [ne_eq, hv, not_false_eq_true, if_true, Option.some.injEq,
            OSCall.close.injEq] at h
          exact ⟨h ▸ hv, rfd, hr, h⟩
      · cases h
    · rintro ⟨hv, rfd, hr, heq⟩
      refine Or.inl ⟨rfd, hr, ?_⟩
      rw [heq]
      simp [hv]
  refine ⟨?_, ?_, ?_, ?_, ?_, ?_⟩
  · intro rfd hr hv
    exact (hmem rfd.fd).mpr ⟨hv, rfd, hr, rfl⟩
  · intro fd h
    exact (hmem fd).mp h
  · intro hnodup rfd hr hv
    rw [TCP_free_count, if_pos hv]
    exact List.count_eq_one_of_mem hnodup (List.mem_map_of_mem _ hr)
  · unfold TCP_free
    rw [List.getLast?_append]
    rfl
  · unfold TCP_free
    rw [List.count_append]
    have h0 : List.count OSCall.UA_free_tcm (fds.filterMap (fun rfd =>
        if rfd.fd ≠ UA_INVALID_FD then some (OSCall.close rfd.fd) else none)) = 0 := by
      rw [List.count_eq_zero, List.mem_filterMap]
      rintro ⟨rfd, _, h⟩
      by_cases hv : rfd.fd = UA_INVALID_FD <;> simp [hv] at h
    rw [h0]
    rfl
  · unfold TCP_free
    rw [List.dropLast_concat]
    intro c hc
    rw [List.mem_filterMap] at hc
    obtain ⟨rfd, _, h⟩ := hc
    by_cases hv : rfd.fd = UA_INVALID_FD
    · simp [hv] at h
    · simp only [ne_eq, hv, not_false_eq_true, if_true, Option.some.injEq] at h
      exact ⟨rfd.fd, h.symm⟩

/-- Witness for `TCP_free_closes_all`: in the example registry handle 7 is closed
exactly once. -/
theorem TCP_free_closes_all_witness :
    (TCP_free [exampleListener, exampleRFD, otherRFD]).count (OSCall.close exampleRFD.fd) = 1 :=
  (TCP_free_closes_all [exampleListener, exampleRFD, otherRFD]).2.2.1 (by decide) exampleRFD
    (by decide) (by decide)

/-- C19: `STM32_NetworkStatusCallback` invoked while `g_eventLoop` is `NULL` returns
without sending an event and without changing any state, for `connected` true and
false alike: no reactor is touched, and a system whose reactor is not installed is
left exactly as it was. -/
theorem networkStatus_no_reactor (cb : CallbackEffect) (s : System) (connected : Bool) :
    STM32_NetworkStatusCallback none connected = none ∧
      System.step cb { s with g_eventLoop := false } (Action.networkStatus connected)
        = { s with g_eventLoop := false } ∧
      (System.step cb { s with g_eventLoop := false }
        (Action.networkStatus connected)).el.eventQueue = s.el.eventQueue := by
  have h := step_network cb { s with g_eventLoop := false } connected
  simp only [Bool.false_eq_true, if_false] at h
  exact ⟨rfl, h, by rw [h]⟩

/-- C20: when the event queue holds its 16 events, `STM32_NetworkStatusCallback`
returns (the interrupt-context send does not suspend) and the event is dropped: the
reactor, with its queue and its lifecycle state, is unchanged. When the queue holds
fewer than 16 events, the reactor is changed only in its queue, which gains at its
tail one event of type NetworkStatusChanged with parameter 1 for connected and 0 for
disconnected. -/
theorem networkStatus_queue (el : UA_EventLoopSTM32) (connected : Bool) :
    STM32_EVENTLOOP_QUEUE_SIZE = 16 ∧
      (el.eventQueue.length = STM32_EVENTLOOP_QUEUE_SIZE →
        STM32_NetworkStatusCallback (some el) connected = some el ∧
          xQueueSendFromISR el.eventQueue (networkStatusEvent connected)
            = (false, el.eventQueue)) ∧
      (el.eventQueue.length < STM32_EVENTLOOP_QUEUE_SIZE →
        STM32_NetworkStatusCallback (some el) connected =
            some { el with eventQueue := el.eventQueue ++ [networkStatusEvent connected] } ∧
          xQueueSendFromISR el.eventQueue (networkStatusEvent connected)
            = (true, el.eventQueue ++ [networkStatusEvent connected])) ∧
      (networkStatusEvent connected).type = STM32_EVENT_NETWORK_STATUS ∧
      (networkStatusEvent true).param = 1 ∧ (networkStatusEvent false).param = 0 := by
  refine ⟨rfl, ?_, ?_, rfl, rfl, rfl⟩
  · intro h
    have hn : ¬ el.eventQueue.length < STM32_EVENTLOOP_QUEUE_SIZE := by omega
    simp [STM32_NetworkStatusCallback, xQueueSendFromISR, networkStatusEvent, hn]
  · intro h
    simp [STM32_NetworkStatusCallback, xQueueSendFromISR, networkStatusEvent, h]

/-- Witness for `networkStatus_queue`: on the example reactor, whose queue is empty,
the event is appended. -/
theorem networkStatus_queue_witness :
    STM32_NetworkStatusCallback (some exampleEL) true =
      some { exampleEL with eventQueue := exampleEL.eventQueue ++ [networkStatusEvent true] } :=
  ((networkStatus_queue exampleEL true).2.2.1 (by decide)).1

/-- The listen-socket callback removes nothing from the registry. -/
theorem listenCallback_keeps (fds : List UA_RegisteredFD) (rfd : UA_RegisteredFD)
    (event : Nat) (os : AcceptOS) (x : UA_RegisteredFD) (hx : x ∈ fds) :
    x ∈ (TCP_listenSocketCallback fds rfd event os).fds := by
  obtain ⟨c0, c1, c2, c3, c4⟩ := listenCallback_cases fds rfd event os
  by_cases h : event &&& UA_FDEVENT_IN = 0
  · rw [c0 h]; exact hx
  · by_cases ha : os.accept = -1
    · rw [c1 h ha]; exact hx
    · cases hc : os.calloc with
      | false => rw [c2 h ha hc]; exact hx
      | true =>
        by_cases hr : (UA_EventLoopSTM32_registerFD fds (acceptedRFD rfd os.accept)
            os.register).status = UA_STATUSCODE_GOOD
        · rw [c4 h ha hc hr]
          exact (FDTree_insert_perm _ _).mem_iff.mpr (List.mem_cons_of_mem _ hx)
        · rw [c3 h ha hc hr]; exact hx

/-- A sweep whose callbacks remove nothing from the registry removes nothing. -/
theorem processSocketEvents_keeps (cb : CallbackEffect) (readset writeset : List Int)
    (hcb : ∀ rfd events registry, ∀ x ∈ registry, x ∈ cb rfd events registry) :
    ∀ (visit registry : List UA_RegisteredFD), ∀ x ∈ registry,
      x ∈ (Task_processSocketEvents cb readset writeset visit registry).2 := by
  intro visit
  induction visit with
  | nil => intro registry x hx; exact hx
  | cons rfd rest ih =>
    intro registry x hx
    by_cases he : Task_events readset writeset rfd.fd = 0
    · simp only [Task_processSocketEvents, he, ne_eq, not_true_eq_false, if_false]
      exact ih registry x hx
    · simp only [Task_processSocketEvents, he, ne_eq, not_false_eq_true, if_true]
      exact ih _ x (hcb _ _ _ x hx)

/-- A pass whose callbacks remove nothing from the registry removes nothing. -/
theorem pass_keeps (cb : CallbackEffect) (os : PassInput) (last : Nat) (el : UA_EventLoopSTM32)
    (hcb : ∀ rfd events registry, ∀ x ∈ registry, x ∈ cb rfd events registry) :
    ∀ x ∈ el.fds, x ∈ (Task_pass cb os last el).el.fds := by
  intro x hx
  simp only [Task_pass, checkEvents_eq]
  by_cases hm : (setFDSetsFromFDTree el).2.2 ≠ UA_INVALID_FD
  · by_cases hpos : (select (setFDSetsFromFDTree el).1 (setFDSetsFromFDTree el).2.1 os).1 > 0
    · simp only [hm, hpos, if_true, ne_eq, not_false_eq_true]
      exact processSocketEvents_keeps cb _ _ hcb _ _ x hx
    · simp [hm, hpos, hx]
  · simp [hm, hx]

/-- No scheduling decision removes a descriptor from the registry, when the
callbacks remove none. -/
theorem step_keeps (cb : CallbackEffect) (s : System) (a : Action)
    (hcb : ∀ rfd events registry, ∀ x ∈ registry, x ∈ cb rfd events registry) :
    ∀ x ∈ s.el.fds, x ∈ (System.step cb s a).el.fds := by
  intro x hx
  cases a with
  | task os =>
    cases ht : s.task with
    | finished => rw [step_task_finished cb os s ht]; exact hx
    | looping =>
      by_cases hst : s.el.state = UA_EVENTLOOPSTATE_STOPPED
      · rw [step_task_stopped cb os s ht hst]; exact hx
      · rw [step_task_running cb os s ht hst]
        exact pass_keeps cb os s.lastWatchdogRefresh s.el hcb x hx
  | stop =>
    cases hp : s.stop with
    | entry => rw [step_stop_entry cb s hp]; exact hx
    | xQueueSend => rw [step_stop_send cb s hp]; split <;> exact hx
    | xSemaphoreTake => rw [step_stop_take cb s hp]; split <;> exact hx
    | returned => rw [step_stop_returned cb s hp]; exact hx
  | networkStatus connected =>
    rw [step_network]
    split <;> exact hx

/-- No schedule removes a descriptor from the registry, when the callbacks remove
none. -/
theorem exec_keeps (cb : CallbackEffect) (schedule : List Action)
    (hcb : ∀ rfd events registry, ∀ x ∈ registry, x ∈ cb rfd events registry) :
    ∀ s : System, ∀ x ∈ s.el.fds, x ∈ (System.exec cb s schedule).el.fds := by
  induction schedule with
  | nil => intro s x hx; exact hx
  | cons a rest ih =>
    intro s x hx
    exact ih _ x (step_keeps cb s a hcb x hx)

/-- An invocation recorded by a pass is for a descriptor registered when the pass
starts, with the mask computed from the sets left by the wait, which is not 0; and
`selectResult` is positive. -/
theorem pass_callbacks_mem (cb : CallbackEffect) (os : PassInput) (last : Nat)
    (el : UA_EventLoopSTM32) (c : UA_RegisteredFD × Nat) :
    c ∈ (Task_pass cb os last el).callbacks ↔
      (0 < (Task_pass cb os last el).selectResult ∧ c.1 ∈ el.fds ∧
        c.2 = Task_events (Task_pass cb os last el).readset
          (Task_pass cb os last el).writeset c.1.fd ∧ c.2 ≠ 0) := by
  have hcb := pass_callbacks cb os last el
  by_cases hpos : 0 < (Task_pass cb os last el).selectResult
  · rw [if_pos hpos] at hcb
    rw [hcb, mem_sweep_iff]
    simp [hpos]
  · rw [if_neg hpos] at hcb
    rw [hcb]
    simp [hpos]

/-- C11: the code at the failing input. The listener on handle 5 and the accepted
descriptor on handle 7 are registered, `select` reports handle 7 readable, and the
peer has closed the connection. The pass makes one call,
`rfd->callback(el_base, rfd, UA_FDEVENT_IN)` for the descriptor on handle 7
(`eventloop_stm32.c`, line 137), and reads nothing back from it: for every effect
`cb` of the call, the reactor after the pass is the reactor of before with the
registry that the call left, so the loop removes no descriptor and reports nothing.
The callback that is called, `TCP_connectionSocketCallback`, returns
BadConnectionClosed on a read of 0 and calls no owning connection when it is handed a
connection manager `tcm`; the call of line 137 hands it the reactor `el_base`, which
the callback reads as its connection manager (`eventloop_stm32_tcp.c`, lines 39 and
50), so the source does not define what the call does. -/
theorem peer_close_dispatch (cb : CallbackEffect) (tcm : UA_TCPConnectionManager) :
    (Task_pass cb readyPass 0 exampleStartedEL).callbacks = [(exampleRFD, UA_FDEVENT_IN)] ∧
      (Task_pass cb readyPass 0 exampleStartedEL).el =
        { exampleStartedEL with fds := cb exampleRFD UA_FDEVENT_IN exampleStartedEL.fds } ∧
      (TCP_connectionSocketCallback tcm exampleRFD UA_FDEVENT_IN SocketInput.closed).status
        = UA_STATUSCODE_BADCONNECTIONCLOSED ∧
      (TCP_connectionSocketCallback tcm exampleRFD UA_FDEVENT_IN
        SocketInput.closed).receiveCalls = [] := by
  refine ⟨rfl, rfl, ?_, ?_⟩
  · simp [TCP_connectionSocketCallback, recv, UA_FDEVENT_IN, UA_FDEVENT_ERR]
  · simp [TCP_connectionSocketCallback, recv, UA_FDEVENT_IN, UA_FDEVENT_ERR]

/-- C23 (counterexample): `start()` on the fresh example reactor with a failed
`xTaskCreate` returns BadOutOfMemory and leaves the state Stopped, not Fresh. -/
theorem start_failure_counterexample :
    exampleEL.state = UA_EVENTLOOPSTATE_FRESH ∧
      (UA_EventLoopSTM32_start exampleEL false).1 = UA_STATUSCODE_BADOUTOFMEMORY ∧
      (UA_EventLoopSTM32_start exampleEL false).2.state = UA_EVENTLOOPSTATE_STOPPED ∧
      (UA_EventLoopSTM32_start exampleEL false).2.state ≠ exampleEL.state := by
  decide

/-- C23 (amended): a `start()` that does not return Good returns BadInternalError or
BadOutOfMemory. With BadInternalError the reactor, and so its lifecycle state, is as
before the call. With BadOutOfMemory (the loop task could not be created) the state
after the call is Stopped and the rest of the reactor is as before; the state then
equals the state before exactly when that was Stopped. -/
theorem start_failure_state (el : UA_EventLoopSTM32) (taskCreated : Bool) :
    ((UA_EventLoopSTM32_start el taskCreated).1 ≠ UA_STATUSCODE_GOOD →
        (UA_EventLoopSTM32_start el taskCreated).1 = UA_STATUSCODE_BADINTERNALERROR ∨
          (UA_EventLoopSTM32_start el taskCreated).1 = UA_STATUSCODE_BADOUTOFMEMORY) ∧
      ((UA_EventLoopSTM32_start el taskCreated).1 = UA_STATUSCODE_BADINTERNALERROR →
        (UA_EventLoopSTM32_start el taskCreated).2 = el) ∧
      ((UA_EventLoopSTM32_start el taskCreated).1 = UA_STATUSCODE_BADOUTOFMEMORY →
        (UA_EventLoopSTM32_start el taskCreated).2
            = { el with state := UA_EVENTLOOPSTATE_STOPPED } ∧
          (el.state = UA_EVENTLOOPSTATE_FRESH ∨ el.state = UA_EVENTLOOPSTATE_STOPPED) ∧
          ((UA_EventLoopSTM32_start el taskCreated).2.state = el.state ↔
            el.state = UA_EVENTLOOPSTATE_STOPPED)) := by
  unfold UA_EventLoopSTM32_start
  by_cases h : el.state ≠ UA_EVENTLOOPSTATE_FRESH ∧ el.state ≠ UA_EVENTLOOPSTATE_STOPPED
  · simp [h]
  · have h2 : el.state = UA_EVENTLOOPSTATE_FRESH ∨ el.state = UA_EVENTLOOPSTATE_STOPPED := by
      by_cases hf : el.state = UA_EVENTLOOPSTATE_FRESH
      · exact Or.inl hf
      · by_cases hs : el.state = UA_EVENTLOOPSTATE_STOPPED
        · exact Or.inr hs
        · exact absurd ⟨hf, hs⟩ h
    cases taskCreated
    · rcases h2 with hf | hs
      · simp [hf]
      · simp [hs]
    · rcases h2 with hf | hs
      · simp [hf]
      · simp [hs]

/-- Witness for `start_failure_state`: a stopped reactor whose task cannot be created
stays Stopped. -/
theorem start_failure_state_witness :
    (UA_EventLoopSTM32_start { exampleEL with state := UA_EVENTLOOPSTATE_STOPPED } false).2
      = { exampleEL with state := UA_EVENTLOOPSTATE_STOPPED } :=
  ((start_failure_state { exampleEL with state := UA_EVENTLOOPSTATE_STOPPED } false).2.2
    (by decide)).1

/-- The mask computed for a handle is 0, the readable bit, the writable bit, or
both. -/
theorem Task_events_values (readset writeset : List Int) (fd : Int) :
    Task_events readset writeset fd = 0 ∨
      Task_events readset writeset fd = UA_FDEVENT_IN ∨
      Task_events readset writeset fd = UA_FDEVENT_OUT ∨
      Task_events readset writeset fd = UA_FDEVENT_IN ||| UA_FDEVENT_OUT := by
  by_cases hr : fd ∈ readset <;> by_cases hw : fd ∈ writeset <;>
    simp [Task_events, FD_ISSET, hr, hw, UA_FDEVENT_IN, UA_FDEVENT_OUT]

/-- With the error bit clear, the connected-socket callback returns
BadConnectionClosed only after a read, which returned 0 or failed with an errno
other than EAGAIN and EWOULDBLOCK. -/
theorem connectionCallback_closed_by_read (tcm : UA_TCPConnectionManager)
    (rfd : UA_RegisteredFD) (event : Nat) (sock : SocketInput)
    (herr : event &&& UA_FDEVENT_ERR = 0)
    (hclosed : (TCP_connectionSocketCallback tcm rfd event sock).status
      = UA_STATUSCODE_BADCONNECTIONCLOSED) :
    event &&& UA_FDEVENT_IN ≠ 0 ∧
      (TCP_connectionSocketCallback tcm rfd event sock).read
        = some (recv sock tcm.recvBufferSize) ∧
      ((recv sock tcm.recvBufferSize).received = 0 ∨
        ((recv sock tcm.recvBufferSize).received < 0 ∧
          (recv sock tcm.recvBufferSize).errno ≠ EAGAIN ∧
          (recv sock tcm.recvBufferSize).errno ≠ EWOULDBLOCK)) := by
  unfold TCP_connectionSocketCallback at hclosed ⊢
  by_cases hin : event &&& UA_FDEVENT_IN = 0
  · simp [herr, hin] at hclosed
  · by_cases hpos : 0 < (recv sock tcm.recvBufferSize).received
    · cases hc : rfd.application.connection <;> simp [herr, hin, hpos, hc] at hclosed
    · by_cases hz : (recv sock tcm.recvBufferSize).received = 0
      · simp [herr, hin, hz]
      · have hneg : (recv sock tcm.recvBufferSize).received < 0 := by omega
        by_cases h1 : (recv sock tcm.recvBufferSize).errno = EAGAIN <;>
          by_cases h2 : (recv sock tcm.recvBufferSize).errno = EWOULDBLOCK <;>
          simp [herr, hin, hpos, hz, h1, h2] at hclosed ⊢
        exact hneg

/-- C24: every event mask that a pass of the run loop passes to a descriptor callback
is the readable bit, the writable bit or both, and never has the error bit, whatever
the registry and the result of the wait are. So the connected-socket callback,
invoked with such a mask, returns BadConnectionClosed only after a read, which
returned 0 or failed with an errno other than EAGAIN and EWOULDBLOCK. The masks are
those of the calls that the pass makes: for every effect `cb` of a call, the registry
that the pass leaves is the registry of before the pass after the calls
`cb rfd events` of the listed invocations, in the listed order, and nothing else. -/
theorem pass_mask_no_error_bit (cb : CallbackEffect) (os : PassInput) (last : Nat)
    (el : UA_EventLoopSTM32) :
    (∀ c ∈ (Task_pass cb os last el).callbacks,
      (c.2 = UA_FDEVENT_IN ∨ c.2 = UA_FDEVENT_OUT ∨ c.2 = UA_FDEVENT_IN ||| UA_FDEVENT_OUT) ∧
        c.2 &&& UA_FDEVENT_ERR = 0 ∧
        ∀ (tcm : UA_TCPConnectionManager) (sock : SocketInput),
          (TCP_connectionSocketCallback tcm c.1 c.2 sock).status
              = UA_STATUSCODE_BADCONNECTIONCLOSED →
            (TCP_connectionSocketCallback tcm c.1 c.2 sock).read
                = some (recv sock tcm.recvBufferSize) ∧
              ((recv sock tcm.recvBufferSize).received = 0 ∨
                ((recv sock tcm.recvBufferSize).received < 0 ∧
                  (recv sock tcm.recvBufferSize).errno ≠ EAGAIN ∧
                  (recv sock tcm.recvBufferSize).errno ≠ EWOULDBLOCK))) ∧
      (Task_pass cb os last el).el.fds =
        (Task_pass cb os last el).callbacks.foldl (fun registry c => cb c.1 c.2 registry)
          el.fds := by
  refine ⟨?_, pass_registry_fold cb os last el⟩
  intro c hc
  obtain ⟨_, _, hev, hne⟩ := (pass_callbacks_mem cb os last el c).mp hc
  have herr : c.2 &&& UA_FDEVENT_ERR = 0 := by
    rw [hev]
    exact (Task_events_bits _ _ _).2.2.2
  refine ⟨?_, herr, ?_⟩
  · rw [hev] at hne ⊢
    rcases Task_events_values (Task_pass cb os last el).readset
      (Task_pass cb os last el).writeset c.1.fd with h | h | h | h
    · exact absurd h hne
    · exact Or.inl h
    · exact Or.inr (Or.inl h)
    · exact Or.inr (Or.inr h)
  · intro tcm sock hclosed
    exact (connectionCallback_closed_by_read tcm c.1 c.2 sock herr hclosed).2

/-- Witness for `pass_mask_no_error_bit`: the mask of the example dispatch, the
readable bit, has no error bit. -/
theorem pass_mask_no_error_bit_witness :
    (exampleRFD, UA_FDEVENT_IN).2 &&& UA_FDEVENT_ERR = 0 :=
  ((pass_mask_no_error_bit noEffect readyPass 0 exampleStartedEL).1 (exampleRFD, UA_FDEVENT_IN)
    (by decide)).2.1

/-- The interrupt handler on a reactor whose queue is full returns the reactor as it
is; on a queue with a free slot it changes the queue only. -/
theorem networkStatus_cases (el : UA_EventLoopSTM32) (connected : Bool) :
    (STM32_EVENTLOOP_QUEUE_SIZE ≤ el.eventQueue.length →
        STM32_NetworkStatusCallback (some el) connected = some el) ∧
      (el.eventQueue.length < STM32_EVENTLOOP_QUEUE_SIZE →
        STM32_NetworkStatusCallback (some el) connected =
          some { el with eventQueue := el.eventQueue ++ [networkStatusEvent connected] }) := by
  constructor
  · intro h
    have hn : ¬ el.eventQueue.length < STM32_EVENTLOOP_QUEUE_SIZE := by omega
    simp [STM32_NetworkStatusCallback, xQueueSendFromISR, hn]
  · intro h
    simp [STM32_NetworkStatusCallback, xQueueSendFromISR, networkStatusEvent, h]

/-- C21 (counterexample): on the example reactor with 16 events queued the interrupt
handler drops the event and returns the reactor exactly as it was, so no quantity
read from the reactor is one more after the dropped send than before it. -/
theorem dropped_event_counterexample :
    fullQueueEL.eventQueue.length = STM32_EVENTLOOP_QUEUE_SIZE ∧
      STM32_NetworkStatusCallback (some fullQueueEL) true = some fullQueueEL ∧
      ¬ ∃ counter : UA_EventLoopSTM32 → Nat,
        ∀ el, STM32_NetworkStatusCallback (some fullQueueEL) true = some el →
          counter el = counter fullQueueEL + 1 := by
  have h : STM32_NetworkStatusCallback (some fullQueueEL) true = some fullQueueEL := by decide
  refine ⟨by decide, h, ?_⟩
  rintro ⟨counter, hc⟩
  have := hc fullQueueEL h
  omega

/-- C21 (amended): a NetworkStatusChanged event dropped because the queue was full on
the interrupt-context send leaves no trace: the reactor keeps no dropped-event
counter and the result of `xQueueSendFromISR` is discarded, so the reactor, the pointer
`g_eventLoop` and everything else are exactly as before the call, and whatever is
observed of them afterwards is what it was before. A send that succeeds changes the
event queue and nothing else. -/
theorem dropped_event_unobservable (cb : CallbackEffect) (p : Firmware) (connected : Bool) :
    (STM32_EVENTLOOP_QUEUE_SIZE ≤ p.sys.el.eventQueue.length →
        Firmware.step cb p (FirmwareAction.networkStatus connected) = p ∧
          ∀ (α : Type) (observe : Firmware → α),
            observe (Firmware.step cb p (FirmwareAction.networkStatus connected)) = observe p) ∧
      (p.sys.el.eventQueue.length < STM32_EVENTLOOP_QUEUE_SIZE →
        p.g_eventLoop = some p.address →
        Firmware.step cb p (FirmwareAction.networkStatus connected) =
          { p with sys := { p.sys with el := { p.sys.el with
              eventQueue := p.sys.el.eventQueue ++ [networkStatusEvent connected] } } }) := by
  obtain ⟨hfull, hroom⟩ := networkStatus_cases p.sys.el connected
  constructor
  · intro h
    have hstep : Firmware.step cb p (FirmwareAction.networkStatus connected) = p := by
      by_cases hg : p.g_eventLoop = some p.address
      · unfold Firmware.step
        simp only []
        rw [if_pos hg, hfull h]
      · simp [Firmware.step, hg, STM32_NetworkStatusCallback]
    exact ⟨hstep, fun α observe => by rw [hstep]⟩
  · intro h hg
    unfold Firmware.step
    simp only []
    rw [if_pos hg, hroom h]

/-- Witness for `dropped_event_unobservable`: the interrupt on the example reactor with
a full queue leaves the firmware as it is. -/
theorem dropped_event_unobservable_witness :
    Firmware.step noEffect (exampleFirmware fullQueueEL) (FirmwareAction.networkStatus true)
      = exampleFirmware fullQueueEL :=
  ((dropped_event_unobservable noEffect (exampleFirmware fullQueueEL) true).1 (by decide)).1

end STM32
